import Mathlib

/-!
Flight computer: flight-phase detector and sensor fusion

A shallow embedding of `Gimbalize/src/stage_detection_mkrimu.cpp`
(`detectFlightPhase_mkrimu`) and `src/main/Sensors.cpp` (`readSensors`,
`readAltitudeFromBMP`), with the properties of the specification stated over it.

Modelling conventions.
* A C++ `float` is an exact rational `ℚ`: comparisons and arithmetic are the
  mathematical ones (no rounding, no NaN, no infinities).
* Global variables are fields of an explicit state record that a tick takes and
  returns; hardware reads are fields of an explicit per-tick input record.
* `Serial.println` is modelled by the list of lines a call emits.
* Constants that the sources use but do not define (`GRAVITY`, the thresholds of
  `stage_detection.h`) are parameters.
* `stage_detection_mkrimu.cpp` is followed statement by statement as written
  (`FlightPhase.GROUND` for the enumerator, the Arduino `abs` for the absolute
  value of a float); the arguments that `IMU.readAcceleration` takes by
  reference are overwritten by the read.
-/

namespace Gimbalize

/-! ## `stage_detection_mkrimu.cpp` -/

/-- The flight phases named by the detector (`FlightPhase.GROUND`, ...). -/
inductive FlightPhase where
  | GROUND
  | POWERED_ASCENT
  | COASTING
  | APOGEE
  | DESCENT
  | LANDING
  deriving DecidableEq, Repr

/-- Position of a phase in the progression
GROUND < POWERED_ASCENT < COASTING < APOGEE < DESCENT < LANDING. -/
def FlightPhase.rank : FlightPhase → Nat
  | .GROUND => 0
  | .POWERED_ASCENT => 1
  | .COASTING => 2
  | .APOGEE => 3
  | .DESCENT => 4
  | .LANDING => 5

/-- The thresholds the detector reads; they are declared in `stage_detection.h`,
which is not among the sources, so they are parameters here. -/
structure Thresholds where
  launch_accel_threshold : ℚ
  coast_accel_threshold : ℚ
  apogee_altitude_threshold : ℚ
  deriving Repr

/-- The globals that `detectFlightPhase_mkrimu` reads and writes. -/
structure DetectorState where
  current_stage : FlightPhase
  currentPressure : ℚ
  lastPressure : ℚ
  deriving DecidableEq, Repr

/-- Everything one call of `detectFlightPhase_mkrimu` receives: its six by-value
arguments and the values the hardware returns during the call. -/
structure TickInput where
  /-- argument `accel_x` -/
  accel_x : ℚ
  /-- argument `accel_y` -/
  accel_y : ℚ
  /-- argument `accel_z` -/
  accel_z : ℚ
  /-- argument `altitude` -/
  altitude : ℚ
  /-- argument `current_pressure` -/
  current_pressure : ℚ
  /-- argument `last_pressure` -/
  last_pressure : ℚ
  /-- the x component stored by `IMU.readAcceleration` (line 35) -/
  imu_x : ℚ
  /-- the y component stored by `IMU.readAcceleration` (line 35) -/
  imu_y : ℚ
  /-- the z component stored by `IMU.readAcceleration` (line 35) -/
  imu_z : ℚ
  /-- the result of `bmp390.readAltitude()` (line 38) -/
  bmpAltitude : ℚ
  /-- the result of `bmp390.readPressure()` (line 68) -/
  bmpPressure : ℚ
  deriving Repr

/-- The local variables of `detectFlightPhase_mkrimu` when the `if` chain of
line 46 is reached: the accelerations are overwritten by the IMU read (line 35),
the altitude by the barometer read (line 38), and both pressures by the constant
1013 (lines 42-43). -/
structure Locals where
  accel_x : ℚ
  accel_y : ℚ
  accel_z : ℚ
  altitude : ℚ
  current_pressure : ℚ
  last_pressure : ℚ
  deriving DecidableEq, Repr

/-- Lines 35-43: the assignments that precede the `if` chain. Every argument is
overwritten before it is read. -/
def loadLocals (inp : TickInput) : Locals :=
  -- by-value arguments
  let l : Locals :=
    { accel_x := inp.accel_x, accel_y := inp.accel_y, accel_z := inp.accel_z,
      altitude := inp.altitude,
      current_pressure := inp.current_pressure, last_pressure := inp.last_pressure }
  -- IMU.readAcceleration(accel_x, accel_y, accel_z);
  let l := { l with accel_x := inp.imu_x, accel_y := inp.imu_y, accel_z := inp.imu_z }
  -- altitude = bmp390.readAltitude();
  let l := { l with altitude := inp.bmpAltitude }
  -- current_pressure = 1013;
  let l := { l with current_pressure := 1013 }
  -- last_pressure = 1013;
  let l := { l with last_pressure := 1013 }
  l

/-- Lines 46-63: the `if` / `else if` chain, returning the new `current_stage`
and the line printed. -/
def phaseChain (th : Thresholds) (current_stage : FlightPhase) (l : Locals) :
    FlightPhase × List String :=
  if current_stage = FlightPhase.GROUND ∧ l.accel_z ≥ th.launch_accel_threshold then
    (FlightPhase.POWERED_ASCENT, ["Launch detected!"])
  else if current_stage = FlightPhase.POWERED_ASCENT ∧ l.accel_z > th.coast_accel_threshold
      ∧ l.current_pressure - l.last_pressure < -1 then
    (FlightPhase.COASTING, ["Coasting Phase detected!"])
  else if current_stage = FlightPhase.COASTING
      ∧ |l.altitude - th.apogee_altitude_threshold| < 10 ∧ l.accel_z < 5 then
    (FlightPhase.APOGEE, ["Apogee detected!"])
  else if current_stage = FlightPhase.APOGEE ∧ 0 > l.accel_z
      ∧ l.altitude < th.apogee_altitude_threshold then
    (FlightPhase.DESCENT, ["Descent detected!"])
  else if current_stage = FlightPhase.DESCENT ∧ |0 - l.accel_z| < 2 then
    (FlightPhase.LANDING, ["Landing detected!"])
  else
    (current_stage, ["PROBLEM DETECTED!"])

/-- One call of `detectFlightPhase_mkrimu` (lines 32-72): the new globals and the
lines printed. -/
def detectFlightPhase_mkrimu (th : Thresholds) (st : DetectorState) (inp : TickInput) :
    DetectorState × List String :=
  let l := loadLocals inp
  let r := phaseChain th st.current_stage l
  -- lastPressure = currentPressure;
  -- currentPressure = bmp390.readPressure()/100
  ({ current_stage := r.1, lastPressure := st.currentPressure,
     currentPressure := inp.bmpPressure / 100 }, r.2)

/-- The globals after a finite sequence of calls. -/
def runTicks (th : Thresholds) (st : DetectorState) : List TickInput → DetectorState
  | [] => st
  | inp :: rest => runTicks th (detectFlightPhase_mkrimu th st inp).1 rest

/-- The sequence of `current_stage` values seen over a finite sequence of calls:
the starting phase followed by the phase after each call. -/
def stageTrace (th : Thresholds) (st : DetectorState) : List TickInput → List FlightPhase
  | [] => [st.current_stage]
  | inp :: rest => st.current_stage :: stageTrace th (detectFlightPhase_mkrimu th st inp).1 rest

/-- The start of a flight: `current_stage = FlightPhase.GROUND` (line 7); the two
pressure globals are unconstrained by the sources. -/
def initialState (currentPressure lastPressure : ℚ) : DetectorState :=
  { current_stage := FlightPhase.GROUND, currentPressure := currentPressure,
    lastPressure := lastPressure }

/-- The condition that the `if` chain tests for the current phase, beside the
test of the phase itself (lines 46, 49, 52, 55, 58). No branch tests LANDING. -/
def transitionGuard (th : Thresholds) (s : FlightPhase) (l : Locals) : Prop :=
  match s with
  | .GROUND => l.accel_z ≥ th.launch_accel_threshold
  | .POWERED_ASCENT =>
      l.accel_z > th.coast_accel_threshold ∧ l.current_pressure - l.last_pressure < -1
  | .COASTING => |l.altitude - th.apogee_altitude_threshold| < 10 ∧ l.accel_z < 5
  | .APOGEE => 0 > l.accel_z ∧ l.altitude < th.apogee_altitude_threshold
  | .DESCENT => |0 - l.accel_z| < 2
  | .LANDING => False

instance (th : Thresholds) (s : FlightPhase) (l : Locals) :
    Decidable (transitionGuard th s l) := by
  cases s <;> (simp only [transitionGuard]; infer_instance)

/-- Sample thresholds: launch at 2, coast at 5, expected apogee at 1000. -/
def sampleThresholds : Thresholds :=
  { launch_accel_threshold := 2, coast_accel_threshold := 5,
    apogee_altitude_threshold := 1000 }

/-- A tick whose arguments and readings agree: vertical acceleration `az`,
altitude `alt`, pressure now `p` and at the previous tick `q`. -/
def scriptedTick (az alt p q : ℚ) : TickInput :=
  { accel_x := 0, accel_y := 0, accel_z := az, altitude := alt,
    current_pressure := p, last_pressure := q,
    imu_x := 0, imu_y := 0, imu_z := az, bmpAltitude := alt, bmpPressure := p * 100 }

/-- A scripted flight: launch at three times the launch threshold, a burn above
the coast threshold while the pressure falls by 13 hPa, arrival at the expected
apogee altitude with no vertical acceleration, a fall below it, and rest. -/
def fullRunScript : List TickInput :=
  [ scriptedTick 6 0 1013 1013,
    scriptedTick 6 100 1000 1013,
    scriptedTick 0 1000 900 1000,
    scriptedTick (-1) 900 910 900,
    scriptedTick 0 0 1013 910 ]

/-- The line printed by the else branch of the `if` chain (line 62). -/
def anomalyLine : String := "PROBLEM DETECTED!"

/-- The line printed by the branch of the `if` chain that enters a phase
(lines 47, 50, 53, 56, 59). No branch enters GROUND. -/
def detectionLine : FlightPhase → Option String
  | .GROUND => none
  | .POWERED_ASCENT => some "Launch detected!"
  | .COASTING => some "Coasting Phase detected!"
  | .APOGEE => some "Apogee detected!"
  | .DESCENT => some "Descent detected!"
  | .LANDING => some "Landing detected!"

end Gimbalize

namespace Sensors

/-! ## `Sensors.cpp` -/

/-- `ACCEL_THRESHOLD` (line 14): the dead-zone on the baseline-subtracted reading. -/
def ACCEL_THRESHOLD : ℚ := 1 / 10

/-- `RESET_THRESHOLD` (line 15): the motion threshold of the velocity reset. -/
def RESET_THRESHOLD : ℚ := 5 / 100

/-- `DRAG_FACTOR` (line 16). -/
def DRAG_FACTOR : ℚ := 98 / 100

/-- `APOGEE_THRESHOLD` (line 11). -/
def APOGEE_THRESHOLD : ℚ := -(1 / 2)

/-- `M_PI` of `math.h`: the double nearest to pi, `0x400921FB54442D18`. -/
def M_PI : ℚ := 884279719003555 / 281474976710656

/-- Modelled from the spec: the recursive noise filter of section 4.1, which the
sources use as the class `SimpleKalmanFilter` of the library header
`SimpleKalmanFilter.h` (not among the sources). Its three parameters are the
measurement uncertainty, the estimate uncertainty and the process noise; the
estimate and the estimate uncertainty persist from call to call. -/
structure SimpleKalmanFilter where
  err_measure : ℚ
  err_estimate : ℚ
  q : ℚ
  current_estimate : ℚ
  last_estimate : ℚ
  kalman_gain : ℚ
  deriving DecidableEq, Repr

/-- Modelled from the spec: the constructor `SimpleKalmanFilter(mea_e, est_e, q)`
of the library (not among the sources); the estimates start at 0. -/
def SimpleKalmanFilter.init (mea_e est_e q : ℚ) : SimpleKalmanFilter :=
  { err_measure := mea_e, err_estimate := est_e, q := q,
    current_estimate := 0, last_estimate := 0, kalman_gain := 0 }

/-- Modelled from the spec: `SimpleKalmanFilter::updateEstimate` of the library (not
among the sources), one measurement update of the recursive filter: the gain
weighs the estimate uncertainty against the measurement uncertainty, the
estimate moves toward the measurement by the gain, and the uncertainty is
updated with the process noise. Returns the new estimate and the new filter. -/
def SimpleKalmanFilter.updateEstimate (f : SimpleKalmanFilter) (mea : ℚ) :
    ℚ × SimpleKalmanFilter :=
  let kalman_gain := f.err_estimate / (f.err_estimate + f.err_measure)
  let current_estimate := f.last_estimate + kalman_gain * (mea - f.last_estimate)
  let err_estimate :=
    (1 - kalman_gain) * f.err_estimate + |f.last_estimate - current_estimate| * f.q
  (current_estimate,
    { f with kalman_gain := kalman_gain, current_estimate := current_estimate,
             err_estimate := err_estimate, last_estimate := current_estimate })

/-- The record `SensorData`; its declaration is in `Sensors.h` (not among the
sources), the fields are those that `readSensors` assigns or reads. -/
structure SensorData where
  gyroX : ℚ
  gyroY : ℚ
  gyroZ : ℚ
  angleX : ℚ
  angleY : ℚ
  angleZ : ℚ
  accelX : ℚ
  accelY : ℚ
  accelZ : ℚ
  velocityX : ℚ
  velocityY : ℚ
  velocityZ : ℚ
  positionX : ℚ
  positionY : ℚ
  positionZ : ℚ
  altitude : ℚ
  rateOfChange : ℚ
  timestamp : ℕ
  deriving DecidableEq, Repr

/-- The globals of `Sensors.cpp` that `readSensors` reads or writes
(lines 23, 26, 27). -/
structure SensorGlobals where
  altitudeFilter : SimpleKalmanFilter
  previousAltitude : ℚ
  accelBaselineX : ℚ
  accelBaselineY : ℚ
  accelBaselineZ : ℚ
  deriving DecidableEq, Repr

/-- The globals as initialised at lines 23-27; `GRAVITY` is a constant of
`Sensors.h` (not among the sources) and is a parameter. -/
def initialGlobals (GRAVITY : ℚ) : SensorGlobals :=
  { altitudeFilter := SimpleKalmanFilter.init 2 2 (1 / 2),
    previousAltitude := 0,
    accelBaselineX := 0, accelBaselineY := 0, accelBaselineZ := GRAVITY }

/-- What the hardware returns during one call of `readSensors`. -/
structure SensorReadings where
  /-- `IMU.gyroscopeAvailable()` -/
  gyroscopeAvailable : Bool
  /-- the values stored by `IMU.readGyroscope` -/
  gyroX_raw : ℚ
  gyroY_raw : ℚ
  gyroZ_raw : ℚ
  /-- `IMU.accelerationAvailable()` -/
  accelerationAvailable : Bool
  /-- the values stored by `IMU.readAcceleration` -/
  accelX_raw : ℚ
  accelY_raw : ℚ
  accelZ_raw : ℚ
  /-- `bmp1.performReading()` -/
  bmp1_performReading : Bool
  /-- `bmp1.readAltitude(SEALEVELPRESSURE_HPA)` -/
  bmp1_readAltitude : ℚ
  /-- `bmp2.performReading()` -/
  bmp2_performReading : Bool
  /-- `bmp2.readAltitude(SEALEVELPRESSURE_HPA)` -/
  bmp2_readAltitude : ℚ
  /-- `millis()` -/
  millis : ℕ
  deriving DecidableEq, Repr

/-- One item written to `Serial`: a text or a number. -/
inductive SerialItem where
  | text (s : String)
  | number (x : ℚ)
  deriving DecidableEq, Repr

/-- The line printed by the failure branch of `readAltitudeFromBMP` (line 162). -/
def bmpFailureLine : SerialItem :=
  SerialItem.text "Failed to read altitude from BMP sensors."

/-- The function `readAltitudeFromBMP` (lines 156-165): the value returned and the
items printed. -/
def readAltitudeFromBMP (r : SensorReadings) : ℚ × List SerialItem :=
  if r.bmp1_performReading then
    (r.bmp1_readAltitude, [])
  else if r.bmp2_performReading then
    (r.bmp2_readAltitude, [])
  else
    (0, [bmpFailureLine])

/-- Lines 78-91 of `readSensors`: the gyroscope block. -/
def gyroBlock (deltaTime : ℚ) (previousData : SensorData) (r : SensorReadings)
    (data : SensorData) : SensorData :=
  if r.gyroscopeAvailable then
    let data := { data with gyroX := r.gyroX_raw * 180 / M_PI }
    let data := { data with gyroY := r.gyroY_raw * 180 / M_PI }
    let data := { data with gyroZ := r.gyroZ_raw * 180 / M_PI }
    let data := { data with angleX := previousData.angleX + data.gyroX * deltaTime }
    let data := { data with angleY := previousData.angleY + data.gyroY * deltaTime }
    let data := { data with angleZ := previousData.angleZ + data.gyroZ * deltaTime }
    data
  else
    data

/-- Lines 102-104: the dead-zone applied to one baseline-subtracted reading. -/
def deadZone (filtered : ℚ) : ℚ :=
  if |filtered| < ACCEL_THRESHOLD then 0 else filtered

/-- Lines 93-137 of `readSensors`: the accelerometer block, with the items it
prints. -/
def accelBlock (GRAVITY deltaTime : ℚ) (previousData : SensorData) (g : SensorGlobals)
    (r : SensorReadings) (data : SensorData) : SensorData × List SerialItem :=
  if r.accelerationAvailable then
    let accelX_filtered := r.accelX_raw - g.accelBaselineX
    let accelY_filtered := r.accelY_raw - g.accelBaselineY
    let accelZ_filtered := r.accelZ_raw - g.accelBaselineZ
    let accelX_filtered := deadZone accelX_filtered
    let accelY_filtered := deadZone accelY_filtered
    let accelZ_filtered := deadZone accelZ_filtered
    let data := { data with accelX := accelX_filtered * GRAVITY }
    let data := { data with accelY := accelY_filtered * GRAVITY }
    let data := { data with accelZ := accelZ_filtered * GRAVITY }
    let data :=
      if |data.accelX| > RESET_THRESHOLD ∨ |data.accelY| > RESET_THRESHOLD
          ∨ |data.accelZ| > RESET_THRESHOLD then
        let data := { data with velocityX := previousData.velocityX + data.accelX * deltaTime }
        let data := { data with velocityY := previousData.velocityY + data.accelY * deltaTime }
        let data := { data with velocityZ := previousData.velocityZ + data.accelZ * deltaTime }
        data
      else
        let data := { data with velocityX := 0 }
        let data := { data with velocityY := 0 }
        let data := { data with velocityZ := 0 }
        data
    let data := { data with velocityX := data.velocityX * DRAG_FACTOR }
    let data := { data with velocityY := data.velocityY * DRAG_FACTOR }
    let data := { data with velocityZ := data.velocityZ * DRAG_FACTOR }
    let data := { data with positionX := previousData.positionX + data.velocityX * deltaTime }
    let data := { data with positionY := previousData.positionY + data.velocityY * deltaTime }
    let data := { data with positionZ := previousData.positionZ + data.velocityZ * deltaTime }
    (data, [SerialItem.text "Velocity X: ", SerialItem.number data.velocityX,
            SerialItem.text "Position X: ", SerialItem.number data.positionX])
  else
    (data, [])

/-- The function `readSensors` (lines 72-154). `data0` is the content of the local
`data` at its declaration on line 73, which has no initialiser: the fields that
no executed assignment writes keep the value they have in `data0`. Returns the
record, the globals after the call and the items printed. -/
def readSensors (GRAVITY : ℚ) (data0 : SensorData) (deltaTime : ℚ)
    (previousData : SensorData) (g : SensorGlobals) (r : SensorReadings) :
    SensorData × SensorGlobals × List SerialItem :=
  let data := data0
  let data := gyroBlock deltaTime previousData r data
  let ab := accelBlock GRAVITY deltaTime previousData g r data
  let data := ab.1
  let out := ab.2
  -- float rawAltitude = readAltitudeFromBMP();
  let ra := readAltitudeFromBMP r
  let rawAltitude := ra.1
  let out := out ++ ra.2
  -- data.altitude = altitudeFilter.updateEstimate(rawAltitude);
  let ue := g.altitudeFilter.updateEstimate rawAltitude
  let data := { data with altitude := ue.1 }
  let g := { g with altitudeFilter := ue.2 }
  -- data.rateOfChange = data.altitude - previousAltitude;
  let data := { data with rateOfChange := data.altitude - g.previousAltitude }
  let out := out ++
    (if data.rateOfChange < APOGEE_THRESHOLD then [SerialItem.text "Apogee detected!"] else [])
  -- previousAltitude = data.altitude;
  let g := { g with previousAltitude := data.altitude }
  let data := { data with timestamp := r.millis }
  (data, g, out)

/-- A record with every field 0. -/
def zeroData : SensorData :=
  { gyroX := 0, gyroY := 0, gyroZ := 0, angleX := 0, angleY := 0, angleZ := 0,
    accelX := 0, accelY := 0, accelZ := 0, velocityX := 0, velocityY := 0, velocityZ := 0,
    positionX := 0, positionY := 0, positionZ := 0, altitude := 0, rateOfChange := 0,
    timestamp := 0 }

/-- A previous record of a vehicle in motion: angles 5, 6, 7, velocity 1, 2, 3 and
position 10, 20, 30. -/
def movingData : SensorData :=
  { zeroData with angleX := 5, angleY := 6, angleZ := 7,
                  velocityX := 1, velocityY := 2, velocityZ := 3,
                  positionX := 10, positionY := 20, positionZ := 30 }

/-- Readings of a tick at rest with gravity `G`: the gyroscope reads 0, the
accelerometer reads the baseline `(0, 0, G)`, and the first barometer reads the
altitude `alt`. -/
def restReadings (G alt : ℚ) : SensorReadings :=
  { gyroscopeAvailable := true, gyroX_raw := 0, gyroY_raw := 0, gyroZ_raw := 0,
    accelerationAvailable := true, accelX_raw := 0, accelY_raw := 0, accelZ_raw := G,
    bmp1_performReading := true, bmp1_readAltitude := alt,
    bmp2_performReading := true, bmp2_readAltitude := alt, millis := 0 }

/-- Readings of a tick on which no sensor has a sample: neither the gyroscope nor
the accelerometer is available and both barometer readings fail. -/
def gapReadings : SensorReadings :=
  { gyroscopeAvailable := false, gyroX_raw := 0, gyroY_raw := 0, gyroZ_raw := 0,
    accelerationAvailable := false, accelX_raw := 0, accelY_raw := 0, accelZ_raw := 0,
    bmp1_performReading := false, bmp1_readAltitude := 0,
    bmp2_performReading := false, bmp2_readAltitude := 0, millis := 100 }

/-- Readings of a tick at rest on which both barometer readings fail. -/
def baroFailReadings (G : ℚ) : SensorReadings :=
  { restReadings G 0 with bmp1_performReading := false, bmp2_performReading := false,
                          millis := 100 }

/-- The first tick of a flight at rest at altitude 100, from the initial globals,
with gravity 9.81 and a tick period of 0.1. -/
def fallbackTick1 : SensorData × SensorGlobals × List SerialItem :=
  readSensors (981 / 100) zeroData (1 / 10) zeroData (initialGlobals (981 / 100))
    (restReadings (981 / 100) 100)

/-- The tick after `fallbackTick1`, on which both barometer readings fail. -/
def fallbackTick2 : SensorData × SensorGlobals × List SerialItem :=
  readSensors (981 / 100) zeroData (1 / 10) fallbackTick1.1 fallbackTick1.2.1
    (baroFailReadings (981 / 100))

/-- The condition of line 112, read on the record whose acceleration fields have
been assigned: some axis exceeds `RESET_THRESHOLD` in magnitude. -/
def motionDetected (d : SensorData) : Prop :=
  |d.accelX| > RESET_THRESHOLD ∨ |d.accelY| > RESET_THRESHOLD ∨ |d.accelZ| > RESET_THRESHOLD

instance (d : SensorData) : Decidable (motionDetected d) := by
  unfold motionDetected; infer_instance

/-- One call of `readSensors` in a sequence of calls: the content of the
uninitialised local, the two arguments and the hardware readings. -/
structure SensorTick where
  data0 : SensorData
  deltaTime : ℚ
  previousData : SensorData
  readings : SensorReadings
  deriving Repr

/-- A sequence of consecutive calls of `readSensors`, the globals threaded from
call to call: the record returned by each call with the globals after it. -/
def sensorTrace (GRAVITY : ℚ) (g : SensorGlobals) :
    List SensorTick → List (SensorData × SensorGlobals)
  | [] => []
  | t :: rest =>
    let res := readSensors GRAVITY t.data0 t.deltaTime t.previousData g t.readings
    (res.1, res.2.1) :: sensorTrace GRAVITY res.2.1 rest

/-- One call of `readSensors` in a loop that passes the record returned by the
previous call as `previousData`. -/
structure FedTick where
  data0 : SensorData
  deltaTime : ℚ
  readings : SensorReadings
  deriving Repr

/-- A sequence of calls of `readSensors`, each fed the record returned by the
previous call (the first is fed `previousData`): the records returned. -/
def fedTrace (GRAVITY : ℚ) (previousData : SensorData) (g : SensorGlobals) :
    List FedTick → List SensorData
  | [] => []
  | t :: rest =>
    let res := readSensors GRAVITY t.data0 t.deltaTime previousData g t.readings
    res.1 :: fedTrace GRAVITY res.1 res.2.1 rest

/-- Readings at rest except for a push along y: the accelerometer reads
`(0, 1, G)`. -/
def sideKickReadings (G : ℚ) : SensorReadings :=
  { restReadings G 100 with accelY_raw := 1 }

/-- Readings under thrust with the vehicle turning: the accelerometer reads
`(0, 0, G + 2)` and the gyroscope reads `M_PI` on the x axis. -/
def boostReadings (G : ℚ) : SensorReadings :=
  { restReadings G 100 with accelZ_raw := G + 2, gyroX_raw := M_PI }

/-- A previous record that agrees with `movingData` on the x axis only: the
velocity and position of the y and z axes and the angles differ. -/
def otherAxesData : SensorData :=
  { movingData with angleX := 0, angleY := -1, angleZ := 40,
                    velocityY := 50, velocityZ := -8,
                    positionY := -7, positionZ := 1000 }

/-- Globals that agree with the initial ones on the x baseline only: the y and z
baselines, the stored altitude and the filter differ. -/
def otherAxesGlobals (G : ℚ) : SensorGlobals :=
  { altitudeFilter := SimpleKalmanFilter.init 1 3 (1 / 4),
    previousAltitude := 3,
    accelBaselineX := 0, accelBaselineY := 1 / 2, accelBaselineZ := G + 1 }

/-- Readings that agree with `sideKickReadings` on the raw x acceleration only:
no gyroscope sample, a push of 2 along y, `G` on z, the first barometer failing. -/
def otherAxesReadings (G : ℚ) : SensorReadings :=
  { gyroscopeAvailable := false, gyroX_raw := 9, gyroY_raw := 9, gyroZ_raw := 9,
    accelerationAvailable := true, accelX_raw := 0, accelY_raw := 2, accelZ_raw := G,
    bmp1_performReading := false, bmp1_readAltitude := 0,
    bmp2_performReading := true, bmp2_readAltitude := 55, millis := 7 }

/-- Three idle ticks with different tick periods; on the second the accelerometer
reads `(1/20, -1/20, G + 9/100)`, inside the dead-zone around the baseline. -/
def idleTicks (G : ℚ) : List FedTick :=
  [ { data0 := zeroData, deltaTime := 1 / 10, readings := restReadings G 100 },
    { data0 := movingData, deltaTime := 1 / 2,
      readings := { restReadings G 101 with accelX_raw := 1 / 20, accelY_raw := -(1 / 20),
                                            accelZ_raw := G + 9 / 100 } },
    { data0 := zeroData, deltaTime := 3, readings := restReadings G 99 } ]

end Sensors

namespace Gimbalize

/-! ### Helper lemmas on the detector -/

theorem loadLocals_pressure (inp : TickInput) :
    (loadLocals inp).current_pressure - (loadLocals inp).last_pressure = 0 := by
  simp [loadLocals]

theorem loadLocals_accel_z (inp : TickInput) : (loadLocals inp).accel_z = inp.imu_z := rfl

theorem loadLocals_altitude (inp : TickInput) : (loadLocals inp).altitude = inp.bmpAltitude := rfl

theorem detect_stage (th : Thresholds) (st : DetectorState) (inp : TickInput) :
    (detectFlightPhase_mkrimu th st inp).1.current_stage
      = (phaseChain th st.current_stage (loadLocals inp)).1 := rfl

/-- A call never lowers the rank of the phase. -/
theorem phaseChain_rank_le (th : Thresholds) (s : FlightPhase) (l : Locals) :
    s.rank ≤ (phaseChain th s l).1.rank := by
  unfold phaseChain
  split_ifs with h1 h2 h3 h4 h5
  · rw [h1.1]; decide
  · rw [h2.1]; decide
  · rw [h3.1]; decide
  · rw [h4.1]; decide
  · rw [h5.1]; decide
  · exact le_refl _

theorem stageTrace_ge (th : Thresholds) (ticks : List TickInput) :
    ∀ (st : DetectorState) (p : FlightPhase), p ∈ stageTrace th st ticks →
      st.current_stage.rank ≤ p.rank := by
  induction ticks with
  | nil =>
    intro st p hp
    simp [stageTrace] at hp
    rw [hp]
  | cons inp rest ih =>
    intro st p hp
    simp only [stageTrace, List.mem_cons] at hp
    rcases hp with hp | hp
    · rw [hp]
    · have h1 := ih _ p hp
      have h2 := phaseChain_rank_le th st.current_stage (loadLocals inp)
      rw [detect_stage] at h1
      exact le_trans h2 h1

/-- The coasting branch (line 49) is never taken: both pressures are 1013. -/
theorem phaseChain_powered_ascent (th : Thresholds) (l : Locals)
    (hp : l.current_pressure - l.last_pressure = 0) :
    (phaseChain th FlightPhase.POWERED_ASCENT l).1 = FlightPhase.POWERED_ASCENT := by
  have h : ¬ (l.accel_z > th.coast_accel_threshold
      ∧ l.current_pressure - l.last_pressure < -1) := by
    rw [hp]; norm_num
  simp only [phaseChain, reduceCtorEq, false_and, true_and, if_false, if_neg h]

theorem phaseChain_ground (th : Thresholds) (l : Locals) :
    (phaseChain th FlightPhase.GROUND l).1
      = if l.accel_z ≥ th.launch_accel_threshold then FlightPhase.POWERED_ASCENT
        else FlightPhase.GROUND := by
  unfold phaseChain
  split_ifs <;> simp_all

/-- The set GROUND, POWERED_ASCENT is closed under a call. -/
theorem detect_low_closed (th : Thresholds) (st : DetectorState) (inp : TickInput)
    (h : st.current_stage = FlightPhase.GROUND ∨ st.current_stage = FlightPhase.POWERED_ASCENT) :
    (detectFlightPhase_mkrimu th st inp).1.current_stage = FlightPhase.GROUND
      ∨ (detectFlightPhase_mkrimu th st inp).1.current_stage = FlightPhase.POWERED_ASCENT := by
  rw [detect_stage]
  rcases h with h | h
  · rw [h, phaseChain_ground]
    split_ifs
    · exact Or.inr rfl
    · exact Or.inl rfl
  · rw [h, phaseChain_powered_ascent th _ (loadLocals_pressure inp)]
    exact Or.inr rfl

theorem runTicks_low_closed (th : Thresholds) (ticks : List TickInput) :
    ∀ st : DetectorState,
      (st.current_stage = FlightPhase.GROUND ∨ st.current_stage = FlightPhase.POWERED_ASCENT) →
      ((runTicks th st ticks).current_stage = FlightPhase.GROUND
        ∨ (runTicks th st ticks).current_stage = FlightPhase.POWERED_ASCENT) := by
  induction ticks with
  | nil => intro st h; exact h
  | cons inp rest ih =>
    intro st h
    exact ih _ (detect_low_closed th st inp h)

theorem detect_powered_ascent (th : Thresholds) (st : DetectorState) (inp : TickInput)
    (h : st.current_stage = FlightPhase.POWERED_ASCENT) :
    (detectFlightPhase_mkrimu th st inp).1.current_stage = FlightPhase.POWERED_ASCENT := by
  rw [detect_stage, h, phaseChain_powered_ascent th _ (loadLocals_pressure inp)]

theorem runTicks_powered_ascent (th : Thresholds) (ticks : List TickInput) :
    ∀ st : DetectorState, st.current_stage = FlightPhase.POWERED_ASCENT →
      (runTicks th st ticks).current_stage = FlightPhase.POWERED_ASCENT := by
  induction ticks with
  | nil => intro st h; exact h
  | cons inp rest ih =>
    intro st h
    exact ih _ (detect_powered_ascent th st inp h)

theorem phaseChain_coasting (th : Thresholds) (l : Locals) :
    (phaseChain th FlightPhase.COASTING l).1
      = if |l.altitude - th.apogee_altitude_threshold| < 10 ∧ l.accel_z < 5
        then FlightPhase.APOGEE else FlightPhase.COASTING := by
  unfold phaseChain
  split_ifs <;> simp_all

/-- The launch tick of the scripted flight enters POWERED_ASCENT. -/
theorem launch_tick_stage :
    (detectFlightPhase_mkrimu sampleThresholds (initialState 1013 1013)
        (scriptedTick 6 0 1013 1013)).1.current_stage = FlightPhase.POWERED_ASCENT := by
  rw [detect_stage, initialState, phaseChain_ground]
  norm_num [loadLocals, scriptedTick, sampleThresholds]

/-! ## Properties of the detector -/

/-- C1: for every starting state and every finite sequence of ticks with arbitrary
readings, the sequence of `current_stage` values is non-decreasing in the order
GROUND < POWERED_ASCENT < COASTING < APOGEE < DESCENT < LANDING: every phase of
the trace is at most every later one, so no tick moves the phase backward. -/
theorem C1_phase_monotonic (th : Thresholds) (st : DetectorState) (ticks : List TickInput) :
    List.Pairwise (fun a b => FlightPhase.rank a ≤ FlightPhase.rank b)
      (stageTrace th st ticks) := by
  induction ticks generalizing st with
  | nil => simp [stageTrace]
  | cons inp rest ih =>
    simp only [stageTrace, List.pairwise_cons]
    refine ⟨?_, ih _⟩
    intro p hp
    have h1 := stageTrace_ge th rest _ p hp
    have h2 := phaseChain_rank_le th st.current_stage (loadLocals inp)
    rw [detect_stage] at h1
    exact le_trans h2 h1

/-- C2: the scripted full run does not reach LANDING. The scripted flight
`fullRunScript` leaves the detector in POWERED_ASCENT, and no sequence of ticks
whatever, started in GROUND, ends in LANDING. -/
theorem C2_full_run_never_lands :
    (runTicks sampleThresholds (initialState 1013 1013) fullRunScript).current_stage
        = FlightPhase.POWERED_ASCENT
      ∧ ∀ (th : Thresholds) (cp lp : ℚ) (ticks : List TickInput),
          (runTicks th (initialState cp lp) ticks).current_stage ≠ FlightPhase.LANDING := by
  constructor
  · rw [fullRunScript, runTicks]
    apply runTicks_powered_ascent
    rw [detect_stage, initialState, phaseChain_ground]
    norm_num [loadLocals, scriptedTick, sampleThresholds]
  · intro th cp lp ticks h
    rcases runTicks_low_closed th ticks (initialState cp lp) (Or.inl rfl) with h1 | h1
    · rw [h1] at h; exact absurd h (by decide)
    · rw [h1] at h; exact absurd h (by decide)

/-- C5: a tick whose readings do not satisfy the guard tested for the current
phase leaves `current_stage` unchanged; and LANDING is terminal: a tick taken in
LANDING leaves the phase LANDING whatever the readings. -/
theorem C5_hold_when_no_guard (th : Thresholds) (st : DetectorState) (inp : TickInput) :
    (¬ transitionGuard th st.current_stage (loadLocals inp) →
        (detectFlightPhase_mkrimu th st inp).1.current_stage = st.current_stage)
      ∧ (st.current_stage = FlightPhase.LANDING →
        (detectFlightPhase_mkrimu th st inp).1.current_stage = FlightPhase.LANDING) := by
  rw [detect_stage]
  constructor
  · intro h
    unfold phaseChain
    cases hs : st.current_stage <;> rw [hs] at h <;> simp only [transitionGuard] at h <;>
      simp only [phaseChain, reduceCtorEq, false_and, true_and, if_false, if_neg h]
  · intro hs
    rw [hs]
    simp [phaseChain]

/-- Witness of C5: in COASTING at altitude 500 (expected apogee 1000) no guard
holds and the phase stays COASTING. -/
theorem C5_hold_when_no_guard_witness :
    (detectFlightPhase_mkrimu sampleThresholds
        { current_stage := FlightPhase.COASTING, currentPressure := 950, lastPressure := 960 }
        (scriptedTick 0 500 950 960)).1.current_stage = FlightPhase.COASTING :=
  (C5_hold_when_no_guard sampleThresholds
      { current_stage := FlightPhase.COASTING, currentPressure := 950, lastPressure := 960 }
      (scriptedTick 0 500 950 960)).1
    (by norm_num [transitionGuard, loadLocals, scriptedTick, sampleThresholds, abs_lt])

/-- C6: a tick taken in GROUND ends in POWERED_ASCENT when the vertical
acceleration tested on line 46 is at least `launch_accel_threshold` (so also at
three times a positive threshold), stays in GROUND when it is below the
threshold, and can end in no other phase. -/
theorem C6_ground_tick (th : Thresholds) (st : DetectorState) (inp : TickInput)
    (h : st.current_stage = FlightPhase.GROUND) :
    ((loadLocals inp).accel_z ≥ th.launch_accel_threshold →
        (detectFlightPhase_mkrimu th st inp).1.current_stage = FlightPhase.POWERED_ASCENT)
      ∧ ((loadLocals inp).accel_z < th.launch_accel_threshold →
        (detectFlightPhase_mkrimu th st inp).1.current_stage = FlightPhase.GROUND)
      ∧ (0 < th.launch_accel_threshold →
        (loadLocals inp).accel_z = 3 * th.launch_accel_threshold →
        (detectFlightPhase_mkrimu th st inp).1.current_stage = FlightPhase.POWERED_ASCENT)
      ∧ ((detectFlightPhase_mkrimu th st inp).1.current_stage = FlightPhase.GROUND
        ∨ (detectFlightPhase_mkrimu th st inp).1.current_stage = FlightPhase.POWERED_ASCENT) := by
  rw [detect_stage, h, phaseChain_ground]
  refine ⟨?_, ?_, ?_, ?_⟩
  · intro hge
    rw [if_pos hge]
  · intro hlt
    rw [if_neg (not_le.mpr hlt)]
  · intro hpos heq
    rw [if_pos (by rw [heq]; linarith)]
  · split_ifs
    · exact Or.inr rfl
    · exact Or.inl rfl

/-- Witness of C6: on the ground, with launch threshold 2, an IMU reading of 6
(three times the threshold) gives POWERED_ASCENT. -/
theorem C6_ground_tick_witness :
    (detectFlightPhase_mkrimu sampleThresholds (initialState 1013 1013)
        (scriptedTick 6 0 1013 1013)).1.current_stage = FlightPhase.POWERED_ASCENT :=
  (C6_ground_tick sampleThresholds (initialState 1013 1013) (scriptedTick 6 0 1013 1013)
      rfl).2.2.1
    (by norm_num [sampleThresholds])
    (by norm_num [loadLocals, scriptedTick, sampleThresholds])

/-- C7: the code at the claim's input. A tick taken in POWERED_ASCENT always ends
in POWERED_ASCENT, whatever the acceleration and the pressures passed, stored or
read: the phase never becomes COASTING. -/
theorem C7_powered_ascent_never_coasts (th : Thresholds) (st : DetectorState)
    (inp : TickInput) (h : st.current_stage = FlightPhase.POWERED_ASCENT) :
    (detectFlightPhase_mkrimu th st inp).1.current_stage = FlightPhase.POWERED_ASCENT
      ∧ (detectFlightPhase_mkrimu th st inp).1.current_stage ≠ FlightPhase.COASTING := by
  have h1 := detect_powered_ascent th st inp h
  exact ⟨h1, by rw [h1]; decide⟩

/-- Witness of C7: in POWERED_ASCENT, with the vertical acceleration 0 below the
coast threshold 5 and every pressure (argument, global, reading) 13 hPa lower
than at the previous tick, the tick leaves the phase POWERED_ASCENT. -/
theorem C7_powered_ascent_never_coasts_witness :
    ((scriptedTick 0 100 1000 1013).imu_z < sampleThresholds.coast_accel_threshold
      ∧ (scriptedTick 0 100 1000 1013).current_pressure
          - (scriptedTick 0 100 1000 1013).last_pressure < -1
      ∧ (scriptedTick 0 100 1000 1013).bmpPressure / 100 - (1013 : ℚ) < -1)
    ∧ (detectFlightPhase_mkrimu sampleThresholds
        { current_stage := FlightPhase.POWERED_ASCENT, currentPressure := 1013,
          lastPressure := 1013 }
        (scriptedTick 0 100 1000 1013)).1.current_stage = FlightPhase.POWERED_ASCENT :=
  ⟨by norm_num [scriptedTick, sampleThresholds],
   (C7_powered_ascent_never_coasts sampleThresholds
      { current_stage := FlightPhase.POWERED_ASCENT, currentPressure := 1013,
        lastPressure := 1013 }
      (scriptedTick 0 100 1000 1013) rfl).1⟩

/-- C8 as stated fails: in COASTING at the expected apogee altitude, a vertical
acceleration of -100, whose magnitude 100 is not below the bound 5, makes the
phase APOGEE. -/
theorem C8_counterexample :
    ¬ (|(loadLocals (scriptedTick (-100) 1000 900 910)).accel_z| < 5)
      ∧ (detectFlightPhase_mkrimu sampleThresholds
          { current_stage := FlightPhase.COASTING, currentPressure := 910, lastPressure := 920 }
          (scriptedTick (-100) 1000 900 910)).1.current_stage = FlightPhase.APOGEE := by
  constructor
  · norm_num [loadLocals, scriptedTick, abs_lt]
  · rw [detect_stage, phaseChain_coasting]
    norm_num [loadLocals, scriptedTick, sampleThresholds]

/-- C8 (amended): a tick taken in COASTING ends in APOGEE exactly when the altitude
is within 10 of `apogee_altitude_threshold` and the signed vertical acceleration
is below 5; so it does when the magnitude of the acceleration is below 5, it does
not when the acceleration is 5 or more, and otherwise the phase stays COASTING. -/
theorem C8_coasting_tick (th : Thresholds) (st : DetectorState) (inp : TickInput)
    (h : st.current_stage = FlightPhase.COASTING) :
    ((detectFlightPhase_mkrimu th st inp).1.current_stage = FlightPhase.APOGEE ↔
        |(loadLocals inp).altitude - th.apogee_altitude_threshold| < 10
          ∧ (loadLocals inp).accel_z < 5)
      ∧ (|(loadLocals inp).altitude - th.apogee_altitude_threshold| < 10 →
          |(loadLocals inp).accel_z| < 5 →
          (detectFlightPhase_mkrimu th st inp).1.current_stage = FlightPhase.APOGEE)
      ∧ ((loadLocals inp).accel_z ≥ 5 →
          (detectFlightPhase_mkrimu th st inp).1.current_stage = FlightPhase.COASTING)
      ∧ ((detectFlightPhase_mkrimu th st inp).1.current_stage = FlightPhase.APOGEE
          ∨ (detectFlightPhase_mkrimu th st inp).1.current_stage = FlightPhase.COASTING) := by
  rw [detect_stage, h, phaseChain_coasting]
  refine ⟨?_, ?_, ?_, ?_⟩
  · split_ifs with hc
    · simp [hc]
    · simp [hc]
  · intro ha hz
    rw [if_pos ⟨ha, (abs_lt.mp hz).2⟩]
  · intro hz
    rw [if_neg (fun hc => absurd hc.2 (not_lt.mpr hz))]
  · split_ifs
    · exact Or.inl rfl
    · exact Or.inr rfl

/-- Witness of C8 (amended): in COASTING at altitude 995 (expected apogee 1000)
with vertical acceleration 1, the tick ends in APOGEE. -/
theorem C8_coasting_tick_witness :
    (detectFlightPhase_mkrimu sampleThresholds
        { current_stage := FlightPhase.COASTING, currentPressure := 910, lastPressure := 920 }
        (scriptedTick 1 995 900 910)).1.current_stage = FlightPhase.APOGEE :=
  (C8_coasting_tick sampleThresholds
      { current_stage := FlightPhase.COASTING, currentPressure := 910, lastPressure := 920 }
      (scriptedTick 1 995 900 910) rfl).2.1
    (by norm_num [loadLocals, scriptedTick, sampleThresholds, abs_lt])
    (by norm_num [loadLocals, scriptedTick, abs_lt])

/-- C17: every tick emits exactly one status line. It is the anomaly line
"PROBLEM DETECTED!" exactly when the tick leaves `current_stage` unchanged; a
tick that changes the phase emits only the detection line of the phase entered,
which is not the anomaly line. -/
theorem C17_one_status_line (th : Thresholds) (st : DetectorState) (inp : TickInput) :
    (detectFlightPhase_mkrimu th st inp).2.length = 1
    ∧ ((detectFlightPhase_mkrimu th st inp).2 = [anomalyLine]
        ↔ (detectFlightPhase_mkrimu th st inp).1.current_stage = st.current_stage)
    ∧ ((detectFlightPhase_mkrimu th st inp).1.current_stage ≠ st.current_stage →
        ∃ line, detectionLine (detectFlightPhase_mkrimu th st inp).1.current_stage = some line
          ∧ (detectFlightPhase_mkrimu th st inp).2 = [line] ∧ line ≠ anomalyLine) := by
  simp only [detectFlightPhase_mkrimu, phaseChain]
  split_ifs with h1 h2 h3 h4 h5
  · simp [h1.1, anomalyLine, detectionLine]
  · simp [h2.1, anomalyLine, detectionLine]
  · simp [h3.1, anomalyLine, detectionLine]
  · simp [h4.1, anomalyLine, detectionLine]
  · simp [h5.1, anomalyLine, detectionLine]
  · simp [anomalyLine]

/-- Witness of C17: the launch tick changes the phase and prints only
"Launch detected!". -/
theorem C17_one_status_line_witness :
    ∃ line, detectionLine (detectFlightPhase_mkrimu sampleThresholds (initialState 1013 1013)
          (scriptedTick 6 0 1013 1013)).1.current_stage = some line
      ∧ (detectFlightPhase_mkrimu sampleThresholds (initialState 1013 1013)
          (scriptedTick 6 0 1013 1013)).2 = [line] ∧ line ≠ anomalyLine :=
  (C17_one_status_line sampleThresholds (initialState 1013 1013)
      (scriptedTick 6 0 1013 1013)).2.2
    (by rw [launch_tick_stage]; decide)

/-- C18: started in GROUND, after any finite sequence of ticks with arbitrary
arguments and readings the phase is GROUND or POWERED_ASCENT, and so none of
COASTING, APOGEE, DESCENT, LANDING; the reason is that at the `if` chain the
difference `current_pressure - last_pressure` is 0 on every tick, so the guard
`< -1` of line 49 is false. -/
theorem C18_only_ground_or_ascent (th : Thresholds) (cp lp : ℚ) (ticks : List TickInput) :
    ((runTicks th (initialState cp lp) ticks).current_stage = FlightPhase.GROUND
      ∨ (runTicks th (initialState cp lp) ticks).current_stage = FlightPhase.POWERED_ASCENT)
    ∧ (runTicks th (initialState cp lp) ticks).current_stage ≠ FlightPhase.COASTING
    ∧ (runTicks th (initialState cp lp) ticks).current_stage ≠ FlightPhase.APOGEE
    ∧ (runTicks th (initialState cp lp) ticks).current_stage ≠ FlightPhase.DESCENT
    ∧ (runTicks th (initialState cp lp) ticks).current_stage ≠ FlightPhase.LANDING
    ∧ ∀ inp : TickInput,
        ¬ ((loadLocals inp).current_pressure - (loadLocals inp).last_pressure < -1) := by
  have h := runTicks_low_closed th ticks (initialState cp lp) (Or.inl rfl)
  refine ⟨h, ?_, ?_, ?_, ?_, ?_⟩
  · rcases h with h | h <;> rw [h] <;> decide
  · rcases h with h | h <;> rw [h] <;> decide
  · rcases h with h | h <;> rw [h] <;> decide
  · rcases h with h | h <;> rw [h] <;> decide
  · intro inp
    rw [loadLocals_pressure]
    norm_num

end Gimbalize

namespace Sensors

/-! ### Helper lemmas on `readSensors` -/

theorem readSensors_altitude (G : ℚ) (data0 : SensorData) (dt : ℚ) (prev : SensorData)
    (g : SensorGlobals) (r : SensorReadings) :
    (readSensors G data0 dt prev g r).1.altitude
      = (g.altitudeFilter.updateEstimate (readAltitudeFromBMP r).1).1 := rfl

theorem readSensors_rateOfChange (G : ℚ) (data0 : SensorData) (dt : ℚ) (prev : SensorData)
    (g : SensorGlobals) (r : SensorReadings) :
    (readSensors G data0 dt prev g r).1.rateOfChange
      = (readSensors G data0 dt prev g r).1.altitude - g.previousAltitude := rfl

theorem readSensors_previousAltitude (G : ℚ) (data0 : SensorData) (dt : ℚ)
    (prev : SensorData) (g : SensorGlobals) (r : SensorReadings) :
    (readSensors G data0 dt prev g r).2.1.previousAltitude
      = (readSensors G data0 dt prev g r).1.altitude := rfl

theorem readSensors_filter (G : ℚ) (data0 : SensorData) (dt : ℚ)
    (prev : SensorData) (g : SensorGlobals) (r : SensorReadings) :
    (readSensors G data0 dt prev g r).2.1.altitudeFilter
      = (g.altitudeFilter.updateEstimate (readAltitudeFromBMP r).1).2 := rfl

theorem readAltitudeFromBMP_fail (r : SensorReadings)
    (h1 : r.bmp1_performReading = false) (h2 : r.bmp2_performReading = false) :
    readAltitudeFromBMP r = (0, [bmpFailureLine]) := by
  simp [readAltitudeFromBMP, h1, h2]

/-- The motion fields returned when an accelerometer sample is available. -/
theorem readSensors_motion (G : ℚ) (data0 : SensorData) (dt : ℚ) (prev : SensorData)
    (g : SensorGlobals) (r : SensorReadings) (ha : r.accelerationAvailable = true) :
    (readSensors G data0 dt prev g r).1.accelX = deadZone (r.accelX_raw - g.accelBaselineX) * G
    ∧ (readSensors G data0 dt prev g r).1.accelY = deadZone (r.accelY_raw - g.accelBaselineY) * G
    ∧ (readSensors G data0 dt prev g r).1.accelZ = deadZone (r.accelZ_raw - g.accelBaselineZ) * G
    ∧ (readSensors G data0 dt prev g r).1.velocityX
        = (if |(readSensors G data0 dt prev g r).1.accelX| > RESET_THRESHOLD
              ∨ |(readSensors G data0 dt prev g r).1.accelY| > RESET_THRESHOLD
              ∨ |(readSensors G data0 dt prev g r).1.accelZ| > RESET_THRESHOLD
           then prev.velocityX + (readSensors G data0 dt prev g r).1.accelX * dt else 0)
          * DRAG_FACTOR
    ∧ (readSensors G data0 dt prev g r).1.velocityY
        = (if |(readSensors G data0 dt prev g r).1.accelX| > RESET_THRESHOLD
              ∨ |(readSensors G data0 dt prev g r).1.accelY| > RESET_THRESHOLD
              ∨ |(readSensors G data0 dt prev g r).1.accelZ| > RESET_THRESHOLD
           then prev.velocityY + (readSensors G data0 dt prev g r).1.accelY * dt else 0)
          * DRAG_FACTOR
    ∧ (readSensors G data0 dt prev g r).1.velocityZ
        = (if |(readSensors G data0 dt prev g r).1.accelX| > RESET_THRESHOLD
              ∨ |(readSensors G data0 dt prev g r).1.accelY| > RESET_THRESHOLD
              ∨ |(readSensors G data0 dt prev g r).1.accelZ| > RESET_THRESHOLD
           then prev.velocityZ + (readSensors G data0 dt prev g r).1.accelZ * dt else 0)
          * DRAG_FACTOR := by
  simp only [readSensors, accelBlock, ha, if_true]
  by_cases hc : |deadZone (r.accelX_raw - g.accelBaselineX) * G| > RESET_THRESHOLD
      ∨ |deadZone (r.accelY_raw - g.accelBaselineY) * G| > RESET_THRESHOLD
      ∨ |deadZone (r.accelZ_raw - g.accelBaselineZ) * G| > RESET_THRESHOLD
  · simp only [if_pos hc, and_self]
  · simp only [if_neg hc, and_self]

theorem gyroBlock_gap (dt : ℚ) (prev : SensorData) (r : SensorReadings) (data : SensorData)
    (h : r.gyroscopeAvailable = false) : gyroBlock dt prev r data = data := by
  simp [gyroBlock, h]

theorem accelBlock_gap (G dt : ℚ) (prev : SensorData) (g : SensorGlobals) (r : SensorReadings)
    (data : SensorData) (h : r.accelerationAvailable = false) :
    accelBlock G dt prev g r data = (data, []) := by
  simp [accelBlock, h]

/-- The gyroscope block writes no velocity or position field. -/
theorem gyroBlock_motion (dt : ℚ) (prev : SensorData) (r : SensorReadings) (data : SensorData) :
    (gyroBlock dt prev r data).velocityX = data.velocityX
    ∧ (gyroBlock dt prev r data).velocityY = data.velocityY
    ∧ (gyroBlock dt prev r data).velocityZ = data.velocityZ
    ∧ (gyroBlock dt prev r data).positionX = data.positionX
    ∧ (gyroBlock dt prev r data).positionY = data.positionY
    ∧ (gyroBlock dt prev r data).positionZ = data.positionZ := by
  unfold gyroBlock
  split_ifs <;> exact ⟨rfl, rfl, rfl, rfl, rfl, rfl⟩

/-- The accelerometer block writes no angle field. -/
theorem accelBlock_angles (G dt : ℚ) (prev : SensorData) (g : SensorGlobals)
    (r : SensorReadings) (data : SensorData) :
    (accelBlock G dt prev g r data).1.angleX = data.angleX
    ∧ (accelBlock G dt prev g r data).1.angleY = data.angleY
    ∧ (accelBlock G dt prev g r data).1.angleZ = data.angleZ := by
  simp only [accelBlock]
  split_ifs <;> exact ⟨rfl, rfl, rfl⟩

/-- The position fields returned when an accelerometer sample is available. -/
theorem readSensors_position (G : ℚ) (data0 : SensorData) (dt : ℚ) (prev : SensorData)
    (g : SensorGlobals) (r : SensorReadings) (ha : r.accelerationAvailable = true) :
    (readSensors G data0 dt prev g r).1.positionX
        = prev.positionX + (readSensors G data0 dt prev g r).1.velocityX * dt
    ∧ (readSensors G data0 dt prev g r).1.positionY
        = prev.positionY + (readSensors G data0 dt prev g r).1.velocityY * dt
    ∧ (readSensors G data0 dt prev g r).1.positionZ
        = prev.positionZ + (readSensors G data0 dt prev g r).1.velocityZ * dt := by
  simp only [readSensors, accelBlock, ha, if_true]
  by_cases hc : |deadZone (r.accelX_raw - g.accelBaselineX) * G| > RESET_THRESHOLD
      ∨ |deadZone (r.accelY_raw - g.accelBaselineY) * G| > RESET_THRESHOLD
      ∨ |deadZone (r.accelZ_raw - g.accelBaselineZ) * G| > RESET_THRESHOLD
  · simp only [if_pos hc, and_self]
  · simp only [if_neg hc, and_self]

/-- The accelerometer block writes no rate or angle field. -/
theorem accelBlock_gyro (G dt : ℚ) (prev : SensorData) (g : SensorGlobals)
    (r : SensorReadings) (data : SensorData) :
    (accelBlock G dt prev g r data).1.gyroX = data.gyroX
    ∧ (accelBlock G dt prev g r data).1.gyroY = data.gyroY
    ∧ (accelBlock G dt prev g r data).1.gyroZ = data.gyroZ := by
  simp only [accelBlock]
  split_ifs <;> exact ⟨rfl, rfl, rfl⟩

/-- The rate and angle fields returned when a gyroscope sample is available. -/
theorem readSensors_angles (G : ℚ) (data0 : SensorData) (dt : ℚ) (prev : SensorData)
    (g : SensorGlobals) (r : SensorReadings) (hg : r.gyroscopeAvailable = true) :
    (readSensors G data0 dt prev g r).1.gyroX = r.gyroX_raw * 180 / M_PI
    ∧ (readSensors G data0 dt prev g r).1.gyroY = r.gyroY_raw * 180 / M_PI
    ∧ (readSensors G data0 dt prev g r).1.gyroZ = r.gyroZ_raw * 180 / M_PI
    ∧ (readSensors G data0 dt prev g r).1.angleX = prev.angleX + r.gyroX_raw * 180 / M_PI * dt
    ∧ (readSensors G data0 dt prev g r).1.angleY = prev.angleY + r.gyroY_raw * 180 / M_PI * dt
    ∧ (readSensors G data0 dt prev g r).1.angleZ = prev.angleZ + r.gyroZ_raw * 180 / M_PI * dt := by
  have hb : gyroBlock dt prev r data0
      = { data0 with gyroX := r.gyroX_raw * 180 / M_PI, gyroY := r.gyroY_raw * 180 / M_PI,
                     gyroZ := r.gyroZ_raw * 180 / M_PI,
                     angleX := prev.angleX + r.gyroX_raw * 180 / M_PI * dt,
                     angleY := prev.angleY + r.gyroY_raw * 180 / M_PI * dt,
                     angleZ := prev.angleZ + r.gyroZ_raw * 180 / M_PI * dt } := by
    simp [gyroBlock, hg]
  have h1 := accelBlock_gyro G dt prev g r (gyroBlock dt prev r data0)
  have h2 := accelBlock_angles G dt prev g r (gyroBlock dt prev r data0)
  refine ⟨h1.1.trans ?_, h1.2.1.trans ?_, h1.2.2.trans ?_,
    h2.1.trans ?_, h2.2.1.trans ?_, h2.2.2.trans ?_⟩ <;> rw [hb]

/-- A call of `readSensors` leaves the acceleration baseline unchanged. -/
theorem readSensors_baseline (G : ℚ) (data0 : SensorData) (dt : ℚ) (prev : SensorData)
    (g : SensorGlobals) (r : SensorReadings) :
    (readSensors G data0 dt prev g r).2.1.accelBaselineX = g.accelBaselineX
    ∧ (readSensors G data0 dt prev g r).2.1.accelBaselineY = g.accelBaselineY
    ∧ (readSensors G data0 dt prev g r).2.1.accelBaselineZ = g.accelBaselineZ :=
  ⟨rfl, rfl, rfl⟩

theorem deadZone_of_lt (x : ℚ) (h : |x| < ACCEL_THRESHOLD) : deadZone x = 0 := by
  simp [deadZone, h]

theorem deadZone_of_not_lt (x : ℚ) (h : ¬ |x| < ACCEL_THRESHOLD) : deadZone x = x := by
  simp [deadZone, h]

/-- The motion fields returned when no accelerometer sample is available are those
of the local `data` at its declaration. -/
theorem readSensors_gap_motion (G : ℚ) (data0 : SensorData) (dt : ℚ) (prev : SensorData)
    (g : SensorGlobals) (r : SensorReadings) (ha : r.accelerationAvailable = false) :
    (readSensors G data0 dt prev g r).1.velocityX = data0.velocityX
    ∧ (readSensors G data0 dt prev g r).1.velocityY = data0.velocityY
    ∧ (readSensors G data0 dt prev g r).1.velocityZ = data0.velocityZ
    ∧ (readSensors G data0 dt prev g r).1.positionX = data0.positionX
    ∧ (readSensors G data0 dt prev g r).1.positionY = data0.positionY
    ∧ (readSensors G data0 dt prev g r).1.positionZ = data0.positionZ := by
  have h := gyroBlock_motion dt prev r data0
  simp only [readSensors, accelBlock_gap G dt prev g r _ ha]
  exact h

/-- The conditioned value `deadZone x * G` of one axis: zero inside the dead-zone;
outside it, for positive `G`, nonzero, of the sign of `x` and of magnitude at
least `ACCEL_THRESHOLD * G`. -/
theorem conditioned_axis (x G : ℚ) :
    (|x| < ACCEL_THRESHOLD → deadZone x * G = 0)
    ∧ (¬ |x| < ACCEL_THRESHOLD → 0 < G →
        deadZone x * G ≠ 0 ∧ (0 < x → 0 < deadZone x * G) ∧ (x < 0 → deadZone x * G < 0)
        ∧ ACCEL_THRESHOLD * G ≤ |deadZone x * G|) := by
  constructor
  · intro h
    rw [deadZone_of_lt x h, zero_mul]
  · intro h hG
    rw [deadZone_of_not_lt x h]
    have hx : ACCEL_THRESHOLD ≤ |x| := not_lt.mp h
    have hT : (0 : ℚ) < ACCEL_THRESHOLD := by norm_num [ACCEL_THRESHOLD]
    have hx0 : x ≠ 0 := by
      intro e
      rw [e, abs_zero] at hx
      exact absurd hT (not_lt.mpr hx)
    refine ⟨mul_ne_zero hx0 (ne_of_gt hG), fun hp => mul_pos hp hG,
      fun hn => mul_neg_of_neg_of_pos hn hG, ?_⟩
    rw [abs_mul, abs_of_pos hG]
    exact mul_le_mul_of_nonneg_right hx hG.le

/-- One idle tick: with an accelerometer sample inside the dead-zone on every
axis, the returned velocity is 0 and the returned position is `previousData`'s. -/
theorem readSensors_idle (G : ℚ) (data0 : SensorData) (dt : ℚ) (prev : SensorData)
    (g : SensorGlobals) (r : SensorReadings) (ha : r.accelerationAvailable = true)
    (hx : |r.accelX_raw - g.accelBaselineX| < ACCEL_THRESHOLD)
    (hy : |r.accelY_raw - g.accelBaselineY| < ACCEL_THRESHOLD)
    (hz : |r.accelZ_raw - g.accelBaselineZ| < ACCEL_THRESHOLD) :
    ((readSensors G data0 dt prev g r).1.velocityX = 0
      ∧ (readSensors G data0 dt prev g r).1.velocityY = 0
      ∧ (readSensors G data0 dt prev g r).1.velocityZ = 0)
    ∧ ((readSensors G data0 dt prev g r).1.positionX = prev.positionX
      ∧ (readSensors G data0 dt prev g r).1.positionY = prev.positionY
      ∧ (readSensors G data0 dt prev g r).1.positionZ = prev.positionZ) := by
  obtain ⟨ax, ay, az, vx, vy, vz⟩ := readSensors_motion G data0 dt prev g r ha
  obtain ⟨px, py, pz⟩ := readSensors_position G data0 dt prev g r ha
  rw [deadZone_of_lt _ hx, zero_mul] at ax
  rw [deadZone_of_lt _ hy, zero_mul] at ay
  rw [deadZone_of_lt _ hz, zero_mul] at az
  have hc : ¬ (|(readSensors G data0 dt prev g r).1.accelX| > RESET_THRESHOLD
      ∨ |(readSensors G data0 dt prev g r).1.accelY| > RESET_THRESHOLD
      ∨ |(readSensors G data0 dt prev g r).1.accelZ| > RESET_THRESHOLD) := by
    rw [ax, ay, az]
    norm_num [RESET_THRESHOLD]
  rw [if_neg hc, zero_mul] at vx vy vz
  rw [vx] at px
  rw [vy] at py
  rw [vz] at pz
  rw [zero_mul, add_zero] at px py pz
  exact ⟨⟨vx, vy, vz⟩, ⟨px, py, pz⟩⟩

/-- C3 as stated fails: after a first tick at altitude 100 (returned altitude 50),
a tick on which both barometer readings fail returns the altitude 25/7, not 50,
and the rate of climb -325/7, not 0. -/
theorem C3_counterexample :
    (baroFailReadings (981 / 100)).bmp1_performReading = false
    ∧ (baroFailReadings (981 / 100)).bmp2_performReading = false
    ∧ fallbackTick1.2.1.previousAltitude = 50
    ∧ fallbackTick2.1.altitude = 25 / 7
    ∧ fallbackTick2.1.rateOfChange = -(325 / 7)
    ∧ fallbackTick2.1.altitude ≠ fallbackTick1.2.1.previousAltitude
    ∧ fallbackTick2.1.rateOfChange ≠ 0 := by
  have hf : fallbackTick1.2.1.altitudeFilter
      = { err_measure := 2, err_estimate := 26, q := 1 / 2, current_estimate := 50,
          last_estimate := 50, kalman_gain := 1 / 2 } := by
    rw [fallbackTick1, readSensors_filter]
    simp only [readAltitudeFromBMP, restReadings, initialGlobals, SimpleKalmanFilter.init,
      SimpleKalmanFilter.updateEstimate, if_true]
    norm_num [abs_of_nonneg]
  have hp : fallbackTick1.2.1.previousAltitude = 50 := by
    rw [fallbackTick1, readSensors_previousAltitude, readSensors_altitude]
    simp only [readAltitudeFromBMP, restReadings, initialGlobals, SimpleKalmanFilter.init,
      SimpleKalmanFilter.updateEstimate, if_true]
    norm_num
  have ha : fallbackTick2.1.altitude = 25 / 7 := by
    rw [fallbackTick2, readSensors_altitude, hf,
      readAltitudeFromBMP_fail (baroFailReadings (981 / 100)) rfl rfl]
    simp only [SimpleKalmanFilter.updateEstimate]
    norm_num
  have hr : fallbackTick2.1.rateOfChange = -(325 / 7) := by
    rw [fallbackTick2, readSensors_rateOfChange, ← fallbackTick2, ha, hp]
    norm_num
  refine ⟨rfl, rfl, hp, ha, hr, ?_, ?_⟩
  · rw [ha, hp]; norm_num
  · rw [hr]; norm_num

/-- C3 (amended): on a tick on which both barometer readings fail,
`readAltitudeFromBMP` returns the default 0, the returned altitude is the
estimate of the altitude filter updated with the measurement 0, and the
returned rate of climb is that altitude minus `previousAltitude`. -/
theorem C3_baro_failure_feeds_zero (G : ℚ) (data0 : SensorData) (dt : ℚ)
    (prev : SensorData) (g : SensorGlobals) (r : SensorReadings)
    (h1 : r.bmp1_performReading = false) (h2 : r.bmp2_performReading = false) :
    (readAltitudeFromBMP r).1 = 0
    ∧ (readSensors G data0 dt prev g r).1.altitude = (g.altitudeFilter.updateEstimate 0).1
    ∧ (readSensors G data0 dt prev g r).1.rateOfChange
        = (g.altitudeFilter.updateEstimate 0).1 - g.previousAltitude := by
  have h0 : (readAltitudeFromBMP r).1 = 0 := by rw [readAltitudeFromBMP_fail r h1 h2]
  have ha : (readSensors G data0 dt prev g r).1.altitude
      = (g.altitudeFilter.updateEstimate 0).1 := by
    rw [readSensors_altitude, h0]
  exact ⟨h0, ha, by rw [readSensors_rateOfChange, ha]⟩

/-- Witness of C3 (amended): the tick `fallbackTick2`, on which both barometer
readings fail. -/
theorem C3_baro_failure_feeds_zero_witness :
    (readAltitudeFromBMP (baroFailReadings (981 / 100))).1 = 0
    ∧ (readSensors (981 / 100) zeroData (1 / 10) fallbackTick1.1 fallbackTick1.2.1
          (baroFailReadings (981 / 100))).1.altitude
        = (fallbackTick1.2.1.altitudeFilter.updateEstimate 0).1
    ∧ (readSensors (981 / 100) zeroData (1 / 10) fallbackTick1.1 fallbackTick1.2.1
          (baroFailReadings (981 / 100))).1.rateOfChange
        = (fallbackTick1.2.1.altitudeFilter.updateEstimate 0).1
            - fallbackTick1.2.1.previousAltitude :=
  C3_baro_failure_feeds_zero (981 / 100) zeroData (1 / 10) fallbackTick1.1 fallbackTick1.2.1
    (baroFailReadings (981 / 100)) rfl rfl

/-- C4: on a tick with an accelerometer sample, if the conditioned acceleration
returned is below `RESET_THRESHOLD` in magnitude on every axis, the returned
velocity is exactly 0 on every axis, whatever `deltaTime` and `previousData`. -/
theorem C4_velocity_reset (G : ℚ) (data0 : SensorData) (dt : ℚ) (prev : SensorData)
    (g : SensorGlobals) (r : SensorReadings) (ha : r.accelerationAvailable = true)
    (hx : |(readSensors G data0 dt prev g r).1.accelX| < RESET_THRESHOLD)
    (hy : |(readSensors G data0 dt prev g r).1.accelY| < RESET_THRESHOLD)
    (hz : |(readSensors G data0 dt prev g r).1.accelZ| < RESET_THRESHOLD) :
    (readSensors G data0 dt prev g r).1.velocityX = 0
    ∧ (readSensors G data0 dt prev g r).1.velocityY = 0
    ∧ (readSensors G data0 dt prev g r).1.velocityZ = 0 := by
  obtain ⟨_, _, _, hvx, hvy, hvz⟩ := readSensors_motion G data0 dt prev g r ha
  have hc : ¬ (|(readSensors G data0 dt prev g r).1.accelX| > RESET_THRESHOLD
      ∨ |(readSensors G data0 dt prev g r).1.accelY| > RESET_THRESHOLD
      ∨ |(readSensors G data0 dt prev g r).1.accelZ| > RESET_THRESHOLD) := by
    rintro (h | h | h)
    · exact absurd h (not_lt.mpr hx.le)
    · exact absurd h (not_lt.mpr hy.le)
    · exact absurd h (not_lt.mpr hz.le)
  rw [if_neg hc] at hvx hvy hvz
  rw [hvx, hvy, hvz]
  simp

/-- Witness of C4: at rest (the accelerometer reads the baseline) with previous
velocity (1, 2, 3), the returned velocity is 0 on every axis. -/
theorem C4_velocity_reset_witness :
    (readSensors (981 / 100) zeroData (1 / 10) movingData (initialGlobals (981 / 100))
        (restReadings (981 / 100) 100)).1.velocityX = 0
    ∧ (readSensors (981 / 100) zeroData (1 / 10) movingData (initialGlobals (981 / 100))
        (restReadings (981 / 100) 100)).1.velocityY = 0
    ∧ (readSensors (981 / 100) zeroData (1 / 10) movingData (initialGlobals (981 / 100))
        (restReadings (981 / 100) 100)).1.velocityZ = 0 :=
  C4_velocity_reset (981 / 100) zeroData (1 / 10) movingData (initialGlobals (981 / 100))
    (restReadings (981 / 100) 100) rfl
    (by rw [(readSensors_motion _ _ _ _ _ _ rfl).1]
        norm_num [deadZone, restReadings, initialGlobals, ACCEL_THRESHOLD, RESET_THRESHOLD])
    (by rw [(readSensors_motion _ _ _ _ _ _ rfl).2.1]
        norm_num [deadZone, restReadings, initialGlobals, ACCEL_THRESHOLD, RESET_THRESHOLD])
    (by rw [(readSensors_motion _ _ _ _ _ _ rfl).2.2.1]
        norm_num [deadZone, restReadings, initialGlobals, ACCEL_THRESHOLD, RESET_THRESHOLD])

/-- C9: the code at the claim's input. On a tick without a gyroscope sample the
returned angles are those of the uninitialised local `data`, and on a tick
without an accelerometer sample so are the returned velocity and position:
`previousData` is not consulted. -/
theorem C9_gap_returns_unassigned (G : ℚ) (data0 : SensorData) (dt : ℚ) (prev : SensorData)
    (g : SensorGlobals) (r : SensorReadings) :
    (r.gyroscopeAvailable = false →
      (readSensors G data0 dt prev g r).1.angleX = data0.angleX
      ∧ (readSensors G data0 dt prev g r).1.angleY = data0.angleY
      ∧ (readSensors G data0 dt prev g r).1.angleZ = data0.angleZ)
    ∧ (r.accelerationAvailable = false →
      (readSensors G data0 dt prev g r).1.velocityX = data0.velocityX
      ∧ (readSensors G data0 dt prev g r).1.velocityY = data0.velocityY
      ∧ (readSensors G data0 dt prev g r).1.velocityZ = data0.velocityZ
      ∧ (readSensors G data0 dt prev g r).1.positionX = data0.positionX
      ∧ (readSensors G data0 dt prev g r).1.positionY = data0.positionY
      ∧ (readSensors G data0 dt prev g r).1.positionZ = data0.positionZ) := by
  constructor
  · intro hg
    have h := accelBlock_angles G dt prev g r (gyroBlock dt prev r data0)
    have e := gyroBlock_gap dt prev r data0 hg
    refine ⟨h.1.trans ?_, h.2.1.trans ?_, h.2.2.trans ?_⟩ <;> rw [e]
  · intro ha
    have h := gyroBlock_motion dt prev r data0
    simp only [readSensors, accelBlock_gap G dt prev g r _ ha]
    exact h

/-- Witness of C9: with the local `data` holding zeros and `previousData` holding
the angle 5 and the velocity 1 on the x axis, a tick without gyroscope and
accelerometer samples returns the angle 0 and the velocity 0, not 5 and 1. -/
theorem C9_gap_returns_unassigned_witness :
    movingData.angleX = 5 ∧ movingData.velocityX = 1 ∧ movingData.positionX = 10
    ∧ (readSensors (981 / 100) zeroData (1 / 10) movingData (initialGlobals (981 / 100))
        gapReadings).1.angleX = 0
    ∧ (readSensors (981 / 100) zeroData (1 / 10) movingData (initialGlobals (981 / 100))
        gapReadings).1.velocityX = 0
    ∧ (readSensors (981 / 100) zeroData (1 / 10) movingData (initialGlobals (981 / 100))
        gapReadings).1.positionX = 0 :=
  ⟨rfl, rfl, rfl,
   ((C9_gap_returns_unassigned (981 / 100) zeroData (1 / 10) movingData
      (initialGlobals (981 / 100)) gapReadings).1 rfl).1,
   ((C9_gap_returns_unassigned (981 / 100) zeroData (1 / 10) movingData
      (initialGlobals (981 / 100)) gapReadings).2 rfl).1,
   ((C9_gap_returns_unassigned (981 / 100) zeroData (1 / 10) movingData
      (initialGlobals (981 / 100)) gapReadings).2 rfl).2.2.2.1⟩

/-- C10: `readAltitudeFromBMP` polls the barometers in priority order. When the
first reading succeeds the result is the first barometer's altitude, whatever
the second reports; when the first fails and the second succeeds it is the
second barometer's altitude; and the failure branch (the failure line printed,
0 returned) is taken exactly when both readings fail. -/
theorem C10_barometer_priority (r : SensorReadings) :
    (r.bmp1_performReading = true → readAltitudeFromBMP r = (r.bmp1_readAltitude, []))
    ∧ (r.bmp1_performReading = false → r.bmp2_performReading = true →
        readAltitudeFromBMP r = (r.bmp2_readAltitude, []))
    ∧ (r.bmp1_performReading = false → r.bmp2_performReading = false →
        readAltitudeFromBMP r = (0, [bmpFailureLine]))
    ∧ (bmpFailureLine ∈ (readAltitudeFromBMP r).2
        ↔ r.bmp1_performReading = false ∧ r.bmp2_performReading = false) := by
  unfold readAltitudeFromBMP
  cases h1 : r.bmp1_performReading <;> cases h2 : r.bmp2_performReading <;> simp

/-- Witness of C10: the first barometer fails and the second reads 120; the result
is 120 and nothing is printed. -/
theorem C10_barometer_priority_witness :
    readAltitudeFromBMP { gapReadings with bmp2_performReading := true,
                                           bmp2_readAltitude := 120 } = (120, []) :=
  (C10_barometer_priority { gapReadings with bmp2_performReading := true,
                                             bmp2_readAltitude := 120 }).2.1 rfl rfl

/-- C11: over every sequence of consecutive calls, the rate of climb returned by a
call is the altitude it returns minus the altitude returned by the call before
(for the first call: minus the stored `previousAltitude`, initially 0), and after
every call the stored `previousAltitude` is the altitude just returned. -/
theorem C11_rate_is_backward_difference (G : ℚ) (g : SensorGlobals)
    (ticks : List SensorTick) :
    (sensorTrace G g ticks).length = ticks.length
    ∧ (∀ p ∈ sensorTrace G g ticks, p.2.previousAltitude = p.1.altitude)
    ∧ (∀ p ∈ (sensorTrace G g ticks).head?,
          p.1.rateOfChange = p.1.altitude - g.previousAltitude)
    ∧ List.Chain' (fun a b => b.1.rateOfChange = b.1.altitude - a.1.altitude)
          (sensorTrace G g ticks)
    ∧ (initialGlobals G).previousAltitude = 0 := by
  induction ticks generalizing g with
  | nil => simp [sensorTrace, initialGlobals]
  | cons t rest ih =>
    obtain ⟨hl, hp, hh, hc, _⟩ :=
      ih (readSensors G t.data0 t.deltaTime t.previousData g t.readings).2.1
    refine ⟨by simp [sensorTrace, hl], ?_, ?_, ?_, rfl⟩
    · intro p hpm
      simp only [sensorTrace, List.mem_cons] at hpm
      rcases hpm with hpm | hpm
      · rw [hpm]; rfl
      · exact hp p hpm
    · intro p hpm
      simp only [sensorTrace, List.head?_cons, Option.mem_def, Option.some.injEq] at hpm
      rw [← hpm]; rfl
    · simp only [sensorTrace]
      rw [List.chain'_cons']
      refine ⟨?_, hc⟩
      intro b hb
      have := hh b hb
      rw [readSensors_previousAltitude] at this
      exact this

/-- C12 as stated fails: two ticks that differ only in the raw acceleration of the
y axis (0 against 1) return different velocities and positions on the x axis:
0 and 10 against 49/50 and 5049/500. -/
theorem C12_counterexample :
    sideKickReadings (981 / 100) = { restReadings (981 / 100) 100 with accelY_raw := 1 }
    ∧ (readSensors (981 / 100) zeroData (1 / 10) movingData (initialGlobals (981 / 100))
        (restReadings (981 / 100) 100)).1.velocityX = 0
    ∧ (readSensors (981 / 100) zeroData (1 / 10) movingData (initialGlobals (981 / 100))
        (sideKickReadings (981 / 100))).1.velocityX = 49 / 50
    ∧ (readSensors (981 / 100) zeroData (1 / 10) movingData (initialGlobals (981 / 100))
        (restReadings (981 / 100) 100)).1.positionX = 10
    ∧ (readSensors (981 / 100) zeroData (1 / 10) movingData (initialGlobals (981 / 100))
        (sideKickReadings (981 / 100))).1.positionX = 5049 / 500 := by
  have v1 : (readSensors (981 / 100) zeroData (1 / 10) movingData (initialGlobals (981 / 100))
      (restReadings (981 / 100) 100)).1.velocityX = 0 := by
    obtain ⟨hx, hy, hz, hv, _, _⟩ := readSensors_motion (981 / 100) zeroData (1 / 10)
      movingData (initialGlobals (981 / 100)) (restReadings (981 / 100) 100) rfl
    rw [hv, hx, hy, hz]
    norm_num [deadZone, restReadings, initialGlobals, ACCEL_THRESHOLD, RESET_THRESHOLD]
  have v2 : (readSensors (981 / 100) zeroData (1 / 10) movingData (initialGlobals (981 / 100))
      (sideKickReadings (981 / 100))).1.velocityX = 49 / 50 := by
    obtain ⟨hx, hy, hz, hv, _, _⟩ := readSensors_motion (981 / 100) zeroData (1 / 10)
      movingData (initialGlobals (981 / 100)) (sideKickReadings (981 / 100)) rfl
    rw [hv, hx, hy, hz]
    norm_num [deadZone, sideKickReadings, restReadings, initialGlobals, ACCEL_THRESHOLD,
      RESET_THRESHOLD, DRAG_FACTOR, movingData, zeroData, abs_lt, lt_abs]
  refine ⟨rfl, v1, v2, ?_, ?_⟩
  · rw [(readSensors_position _ _ _ _ _ _ rfl).1, v1]
    norm_num [movingData, zeroData]
  · rw [(readSensors_position _ _ _ _ _ _ rfl).1, v2]
    norm_num [movingData, zeroData]

/-- C12 (amended): on ticks with an accelerometer sample the axes are coupled only
through the shared reset decision of line 112. Take two calls with the same
`GRAVITY` and `deltaTime` and the same outcome of the test of line 112, and
otherwise arbitrary: different contents of the local `data`, different
`previousData`, different globals, different readings. If they agree on the raw
acceleration, the baseline and the previous velocity of one axis, they return
the same velocity on that axis; if they also agree on its previous position,
they return the same position on that axis. -/
theorem C12_axes_coupled_by_reset_only (G dt : ℚ) (data1 data2 prev1 prev2 : SensorData)
    (g1 g2 : SensorGlobals) (r1 r2 : SensorReadings)
    (ha1 : r1.accelerationAvailable = true) (ha2 : r2.accelerationAvailable = true)
    (hm : motionDetected (readSensors G data1 dt prev1 g1 r1).1
      ↔ motionDetected (readSensors G data2 dt prev2 g2 r2).1) :
    (r1.accelX_raw = r2.accelX_raw → g1.accelBaselineX = g2.accelBaselineX →
      prev1.velocityX = prev2.velocityX →
      (readSensors G data1 dt prev1 g1 r1).1.velocityX
          = (readSensors G data2 dt prev2 g2 r2).1.velocityX
      ∧ (prev1.positionX = prev2.positionX →
          (readSensors G data1 dt prev1 g1 r1).1.positionX
            = (readSensors G data2 dt prev2 g2 r2).1.positionX))
    ∧ (r1.accelY_raw = r2.accelY_raw → g1.accelBaselineY = g2.accelBaselineY →
      prev1.velocityY = prev2.velocityY →
      (readSensors G data1 dt prev1 g1 r1).1.velocityY
          = (readSensors G data2 dt prev2 g2 r2).1.velocityY
      ∧ (prev1.positionY = prev2.positionY →
          (readSensors G data1 dt prev1 g1 r1).1.positionY
            = (readSensors G data2 dt prev2 g2 r2).1.positionY))
    ∧ (r1.accelZ_raw = r2.accelZ_raw → g1.accelBaselineZ = g2.accelBaselineZ →
      prev1.velocityZ = prev2.velocityZ →
      (readSensors G data1 dt prev1 g1 r1).1.velocityZ
          = (readSensors G data2 dt prev2 g2 r2).1.velocityZ
      ∧ (prev1.positionZ = prev2.positionZ →
          (readSensors G data1 dt prev1 g1 r1).1.positionZ
            = (readSensors G data2 dt prev2 g2 r2).1.positionZ)) := by
  obtain ⟨ax1, ay1, az1, vx1, vy1, vz1⟩ := readSensors_motion G data1 dt prev1 g1 r1 ha1
  obtain ⟨ax2, ay2, az2, vx2, vy2, vz2⟩ := readSensors_motion G data2 dt prev2 g2 r2 ha2
  obtain ⟨px1, py1, pz1⟩ := readSensors_position G data1 dt prev1 g1 r1 ha1
  obtain ⟨px2, py2, pz2⟩ := readSensors_position G data2 dt prev2 g2 r2 ha2
  unfold motionDetected at hm
  have hvx : r1.accelX_raw = r2.accelX_raw → g1.accelBaselineX = g2.accelBaselineX →
      prev1.velocityX = prev2.velocityX →
      (readSensors G data1 dt prev1 g1 r1).1.velocityX
        = (readSensors G data2 dt prev2 g2 r2).1.velocityX := by
    intro e eb ev
    by_cases c : |(readSensors G data1 dt prev1 g1 r1).1.accelX| > RESET_THRESHOLD
        ∨ |(readSensors G data1 dt prev1 g1 r1).1.accelY| > RESET_THRESHOLD
        ∨ |(readSensors G data1 dt prev1 g1 r1).1.accelZ| > RESET_THRESHOLD
    · rw [vx1, vx2, if_pos c, if_pos (hm.mp c), ax1, ax2, e, eb, ev]
    · rw [vx1, vx2, if_neg c, if_neg (fun c2 => c (hm.mpr c2))]
  have hvy : r1.accelY_raw = r2.accelY_raw → g1.accelBaselineY = g2.accelBaselineY →
      prev1.velocityY = prev2.velocityY →
      (readSensors G data1 dt prev1 g1 r1).1.velocityY
        = (readSensors G data2 dt prev2 g2 r2).1.velocityY := by
    intro e eb ev
    by_cases c : |(readSensors G data1 dt prev1 g1 r1).1.accelX| > RESET_THRESHOLD
        ∨ |(readSensors G data1 dt prev1 g1 r1).1.accelY| > RESET_THRESHOLD
        ∨ |(readSensors G data1 dt prev1 g1 r1).1.accelZ| > RESET_THRESHOLD
    · rw [vy1, vy2, if_pos c, if_pos (hm.mp c), ay1, ay2, e, eb, ev]
    · rw [vy1, vy2, if_neg c, if_neg (fun c2 => c (hm.mpr c2))]
  have hvz : r1.accelZ_raw = r2.accelZ_raw → g1.accelBaselineZ = g2.accelBaselineZ →
      prev1.velocityZ = prev2.velocityZ →
      (readSensors G data1 dt prev1 g1 r1).1.velocityZ
        = (readSensors G data2 dt prev2 g2 r2).1.velocityZ := by
    intro e eb ev
    by_cases c : |(readSensors G data1 dt prev1 g1 r1).1.accelX| > RESET_THRESHOLD
        ∨ |(readSensors G data1 dt prev1 g1 r1).1.accelY| > RESET_THRESHOLD
        ∨ |(readSensors G data1 dt prev1 g1 r1).1.accelZ| > RESET_THRESHOLD
    · rw [vz1, vz2, if_pos c, if_pos (hm.mp c), az1, az2, e, eb, ev]
    · rw [vz1, vz2, if_neg c, if_neg (fun c2 => c (hm.mpr c2))]
  refine ⟨fun e eb ev => ⟨hvx e eb ev, fun ep => ?_⟩,
    fun e eb ev => ⟨hvy e eb ev, fun ep => ?_⟩,
    fun e eb ev => ⟨hvz e eb ev, fun ep => ?_⟩⟩
  · rw [px1, px2, hvx e eb ev, ep]
  · rw [py1, py2, hvy e eb ev, ep]
  · rw [pz1, pz2, hvz e eb ev, ep]

/-- Witness of C12 (amended): two calls that share only the x axis (raw
acceleration 0, baseline 0, previous velocity 1, previous position 10) and both
pass the test of line 112, one by a push of 1 along y and one by a push of 2
against a y baseline of 1/2 and a z baseline of `G + 1`, with different local
contents, previous records, globals, gyroscope and barometer readings, return the
same velocity and the same position on x. -/
theorem C12_axes_coupled_by_reset_only_witness :
    (readSensors (981 / 100) zeroData (1 / 10) movingData (initialGlobals (981 / 100))
        (sideKickReadings (981 / 100))).1.velocityX
      = (readSensors (981 / 100) movingData (1 / 10) otherAxesData
          (otherAxesGlobals (981 / 100)) (otherAxesReadings (981 / 100))).1.velocityX
    ∧ (readSensors (981 / 100) zeroData (1 / 10) movingData (initialGlobals (981 / 100))
        (sideKickReadings (981 / 100))).1.positionX
      = (readSensors (981 / 100) movingData (1 / 10) otherAxesData
          (otherAxesGlobals (981 / 100)) (otherAxesReadings (981 / 100))).1.positionX :=
  (fun h => ⟨h.1, h.2 rfl⟩)
    ((C12_axes_coupled_by_reset_only (981 / 100) (1 / 10) zeroData movingData movingData
      otherAxesData (initialGlobals (981 / 100)) (otherAxesGlobals (981 / 100))
      (sideKickReadings (981 / 100)) (otherAxesReadings (981 / 100)) rfl rfl
      ⟨fun _ => Or.inr (Or.inl (by
          rw [(readSensors_motion _ _ _ _ _ _ rfl).2.1]
          norm_num [deadZone, otherAxesReadings, otherAxesGlobals, ACCEL_THRESHOLD,
            RESET_THRESHOLD, abs_lt, lt_abs])),
       fun _ => Or.inr (Or.inl (by
          rw [(readSensors_motion _ _ _ _ _ _ rfl).2.1]
          norm_num [deadZone, sideKickReadings, restReadings, initialGlobals, ACCEL_THRESHOLD,
            RESET_THRESHOLD, abs_lt, lt_abs]))⟩).1 rfl rfl rfl)

/-- C13: on a tick with an accelerometer sample on which the conditioned
acceleration exceeds `RESET_THRESHOLD` in magnitude on some axis, the returned
velocity on each axis is `DRAG_FACTOR * (previous velocity + accel * deltaTime)`,
where `accel` is the returned conditioned acceleration of the axis
(dead-zoned raw minus baseline, times `GRAVITY`), and `DRAG_FACTOR = 0.98 < 1`. -/
theorem C13_velocity_integration (G : ℚ) (data0 : SensorData) (dt : ℚ) (prev : SensorData)
    (g : SensorGlobals) (r : SensorReadings) (ha : r.accelerationAvailable = true)
    (hm : motionDetected (readSensors G data0 dt prev g r).1) :
    ((readSensors G data0 dt prev g r).1.velocityX
        = DRAG_FACTOR * (prev.velocityX + (readSensors G data0 dt prev g r).1.accelX * dt)
      ∧ (readSensors G data0 dt prev g r).1.velocityY
        = DRAG_FACTOR * (prev.velocityY + (readSensors G data0 dt prev g r).1.accelY * dt)
      ∧ (readSensors G data0 dt prev g r).1.velocityZ
        = DRAG_FACTOR * (prev.velocityZ + (readSensors G data0 dt prev g r).1.accelZ * dt))
    ∧ ((readSensors G data0 dt prev g r).1.accelX
          = deadZone (r.accelX_raw - g.accelBaselineX) * G
      ∧ (readSensors G data0 dt prev g r).1.accelY
          = deadZone (r.accelY_raw - g.accelBaselineY) * G
      ∧ (readSensors G data0 dt prev g r).1.accelZ
          = deadZone (r.accelZ_raw - g.accelBaselineZ) * G)
    ∧ DRAG_FACTOR = 98 / 100 ∧ DRAG_FACTOR < 1 := by
  obtain ⟨ax, ay, az, vx, vy, vz⟩ := readSensors_motion G data0 dt prev g r ha
  unfold motionDetected at hm
  rw [if_pos hm] at vx vy vz
  refine ⟨⟨?_, ?_, ?_⟩, ⟨ax, ay, az⟩, rfl, by norm_num [DRAG_FACTOR]⟩
  · rw [vx, mul_comm]
  · rw [vy, mul_comm]
  · rw [vz, mul_comm]

/-- Witness of C13: under thrust (the accelerometer reads `G + 2` on z, so the
conditioned acceleration is 1962/100) with previous velocity 3 on z and a tick
of 1/10, the returned velocity on z is `DRAG_FACTOR * (3 + accelZ / 10)`. -/
theorem C13_velocity_integration_witness :
    (readSensors (981 / 100) zeroData (1 / 10) movingData (initialGlobals (981 / 100))
        (boostReadings (981 / 100))).1.accelZ = 1962 / 100
    ∧ (readSensors (981 / 100) zeroData (1 / 10) movingData (initialGlobals (981 / 100))
        (boostReadings (981 / 100))).1.velocityZ
      = DRAG_FACTOR * (movingData.velocityZ
          + (readSensors (981 / 100) zeroData (1 / 10) movingData (initialGlobals (981 / 100))
              (boostReadings (981 / 100))).1.accelZ * (1 / 10)) :=
  ⟨by rw [(readSensors_motion _ _ _ _ _ _ rfl).2.2.1]
      norm_num [deadZone, boostReadings, restReadings, initialGlobals, ACCEL_THRESHOLD,
        abs_lt],
   (C13_velocity_integration (981 / 100) zeroData (1 / 10) movingData
      (initialGlobals (981 / 100)) (boostReadings (981 / 100)) rfl
      (Or.inr (Or.inr (by
        rw [(readSensors_motion _ _ _ _ _ _ rfl).2.2.1]
        norm_num [deadZone, boostReadings, restReadings, initialGlobals, ACCEL_THRESHOLD,
          RESET_THRESHOLD, abs_lt, lt_abs])))).1.2.2⟩

/-- C14: on a tick with an accelerometer sample, the returned position on each
axis is `previousData`'s position plus the velocity returned by the same tick
(the velocity after the drag factor) times `deltaTime`. -/
theorem C14_position_update (G : ℚ) (data0 : SensorData) (dt : ℚ) (prev : SensorData)
    (g : SensorGlobals) (r : SensorReadings) (ha : r.accelerationAvailable = true) :
    (readSensors G data0 dt prev g r).1.positionX
        = prev.positionX + (readSensors G data0 dt prev g r).1.velocityX * dt
    ∧ (readSensors G data0 dt prev g r).1.positionY
        = prev.positionY + (readSensors G data0 dt prev g r).1.velocityY * dt
    ∧ (readSensors G data0 dt prev g r).1.positionZ
        = prev.positionZ + (readSensors G data0 dt prev g r).1.velocityZ * dt
    ∧ (readSensors G data0 dt prev g r).1.positionX
        = prev.positionX
          + (if motionDetected (readSensors G data0 dt prev g r).1
              then prev.velocityX + (readSensors G data0 dt prev g r).1.accelX * dt else 0)
            * DRAG_FACTOR * dt
    ∧ (readSensors G data0 dt prev g r).1.positionY
        = prev.positionY
          + (if motionDetected (readSensors G data0 dt prev g r).1
              then prev.velocityY + (readSensors G data0 dt prev g r).1.accelY * dt else 0)
            * DRAG_FACTOR * dt
    ∧ (readSensors G data0 dt prev g r).1.positionZ
        = prev.positionZ
          + (if motionDetected (readSensors G data0 dt prev g r).1
              then prev.velocityZ + (readSensors G data0 dt prev g r).1.accelZ * dt else 0)
            * DRAG_FACTOR * dt := by
  obtain ⟨px, py, pz⟩ := readSensors_position G data0 dt prev g r ha
  obtain ⟨_, _, _, vx, vy, vz⟩ := readSensors_motion G data0 dt prev g r ha
  refine ⟨px, py, pz, ?_, ?_, ?_⟩
  · rw [px, vx]; rfl
  · rw [py, vy]; rfl
  · rw [pz, vz]; rfl

/-- Witness of C14: the tick under thrust of the witness of C13. -/
theorem C14_position_update_witness :
    (readSensors (981 / 100) zeroData (1 / 10) movingData (initialGlobals (981 / 100))
        (boostReadings (981 / 100))).1.positionZ
      = movingData.positionZ
        + (readSensors (981 / 100) zeroData (1 / 10) movingData (initialGlobals (981 / 100))
            (boostReadings (981 / 100))).1.velocityZ * (1 / 10) :=
  (C14_position_update (981 / 100) zeroData (1 / 10) movingData
      (initialGlobals (981 / 100)) (boostReadings (981 / 100)) rfl).2.2.1

/-- C15: on a tick with a gyroscope sample, the returned angle on each axis is
`previousData`'s angle plus the returned angular rate in degrees per second (the
raw reading times 180 over `M_PI`) times `deltaTime`; the angles are the same
whatever the accelerometer and the barometers read and whatever the globals. -/
theorem C15_angle_integration (G : ℚ) (data0 : SensorData) (dt : ℚ) (prev : SensorData)
    (g : SensorGlobals) (r : SensorReadings) (hg : r.gyroscopeAvailable = true) :
    ((readSensors G data0 dt prev g r).1.gyroX = r.gyroX_raw * 180 / M_PI
      ∧ (readSensors G data0 dt prev g r).1.gyroY = r.gyroY_raw * 180 / M_PI
      ∧ (readSensors G data0 dt prev g r).1.gyroZ = r.gyroZ_raw * 180 / M_PI)
    ∧ ((readSensors G data0 dt prev g r).1.angleX
          = prev.angleX + (readSensors G data0 dt prev g r).1.gyroX * dt
      ∧ (readSensors G data0 dt prev g r).1.angleY
          = prev.angleY + (readSensors G data0 dt prev g r).1.gyroY * dt
      ∧ (readSensors G data0 dt prev g r).1.angleZ
          = prev.angleZ + (readSensors G data0 dt prev g r).1.gyroZ * dt)
    ∧ ∀ (G2 : ℚ) (data2 : SensorData) (g2 : SensorGlobals) (r2 : SensorReadings),
        r2.gyroscopeAvailable = true → r2.gyroX_raw = r.gyroX_raw →
        r2.gyroY_raw = r.gyroY_raw → r2.gyroZ_raw = r.gyroZ_raw →
        (readSensors G2 data2 dt prev g2 r2).1.angleX = (readSensors G data0 dt prev g r).1.angleX
        ∧ (readSensors G2 data2 dt prev g2 r2).1.angleY
            = (readSensors G data0 dt prev g r).1.angleY
        ∧ (readSensors G2 data2 dt prev g2 r2).1.angleZ
            = (readSensors G data0 dt prev g r).1.angleZ := by
  obtain ⟨gx, gy, gz, ax, ay, az⟩ := readSensors_angles G data0 dt prev g r hg
  refine ⟨⟨gx, gy, gz⟩, ⟨?_, ?_, ?_⟩, ?_⟩
  · rw [ax, gx]
  · rw [ay, gy]
  · rw [az, gz]
  · intro G2 data2 g2 r2 hg2 ex ey ez
    obtain ⟨_, _, _, bx, by2, bz⟩ := readSensors_angles G2 data2 dt prev g2 r2 hg2
    rw [ax, ay, az, bx, by2, bz, ex, ey, ez]
    exact ⟨rfl, rfl, rfl⟩

/-- Witness of C15: with the gyroscope reading `M_PI` on x, the returned rate is
180 degrees per second and the angle is the previous angle plus that rate times
the tick of 1/10. -/
theorem C15_angle_integration_witness :
    (readSensors (981 / 100) zeroData (1 / 10) movingData (initialGlobals (981 / 100))
        (boostReadings (981 / 100))).1.gyroX = M_PI * 180 / M_PI
    ∧ (readSensors (981 / 100) zeroData (1 / 10) movingData (initialGlobals (981 / 100))
        (boostReadings (981 / 100))).1.angleX
      = movingData.angleX
        + (readSensors (981 / 100) zeroData (1 / 10) movingData (initialGlobals (981 / 100))
            (boostReadings (981 / 100))).1.gyroX * (1 / 10) :=
  ⟨(C15_angle_integration (981 / 100) zeroData (1 / 10) movingData
      (initialGlobals (981 / 100)) (boostReadings (981 / 100)) rfl).1.1,
   (C15_angle_integration (981 / 100) zeroData (1 / 10) movingData
      (initialGlobals (981 / 100)) (boostReadings (981 / 100)) rfl).2.1.1⟩

/-- C16: on a tick with an accelerometer sample, on each axis the conditioned
acceleration returned is the dead-zoned difference raw minus baseline times
`GRAVITY`: it is exactly 0 when `|raw - baseline| < ACCEL_THRESHOLD = 0.1`, and
otherwise, for positive `GRAVITY`, nonzero with the sign of `raw - baseline`. -/
theorem C16_acceleration_conditioning (G : ℚ) (data0 : SensorData) (dt : ℚ)
    (prev : SensorData) (g : SensorGlobals) (r : SensorReadings)
    (ha : r.accelerationAvailable = true) :
    ACCEL_THRESHOLD = 1 / 10
    ∧ ((readSensors G data0 dt prev g r).1.accelX
          = deadZone (r.accelX_raw - g.accelBaselineX) * G
      ∧ (|r.accelX_raw - g.accelBaselineX| < ACCEL_THRESHOLD →
          (readSensors G data0 dt prev g r).1.accelX = 0)
      ∧ (¬ |r.accelX_raw - g.accelBaselineX| < ACCEL_THRESHOLD → 0 < G →
          (readSensors G data0 dt prev g r).1.accelX ≠ 0
          ∧ (0 < r.accelX_raw - g.accelBaselineX → 0 < (readSensors G data0 dt prev g r).1.accelX)
          ∧ (r.accelX_raw - g.accelBaselineX < 0 →
              (readSensors G data0 dt prev g r).1.accelX < 0)))
    ∧ ((readSensors G data0 dt prev g r).1.accelY
          = deadZone (r.accelY_raw - g.accelBaselineY) * G
      ∧ (|r.accelY_raw - g.accelBaselineY| < ACCEL_THRESHOLD →
          (readSensors G data0 dt prev g r).1.accelY = 0)
      ∧ (¬ |r.accelY_raw - g.accelBaselineY| < ACCEL_THRESHOLD → 0 < G →
          (readSensors G data0 dt prev g r).1.accelY ≠ 0
          ∧ (0 < r.accelY_raw - g.accelBaselineY → 0 < (readSensors G data0 dt prev g r).1.accelY)
          ∧ (r.accelY_raw - g.accelBaselineY < 0 →
              (readSensors G data0 dt prev g r).1.accelY < 0)))
    ∧ ((readSensors G data0 dt prev g r).1.accelZ
          = deadZone (r.accelZ_raw - g.accelBaselineZ) * G
      ∧ (|r.accelZ_raw - g.accelBaselineZ| < ACCEL_THRESHOLD →
          (readSensors G data0 dt prev g r).1.accelZ = 0)
      ∧ (¬ |r.accelZ_raw - g.accelBaselineZ| < ACCEL_THRESHOLD → 0 < G →
          (readSensors G data0 dt prev g r).1.accelZ ≠ 0
          ∧ (0 < r.accelZ_raw - g.accelBaselineZ → 0 < (readSensors G data0 dt prev g r).1.accelZ)
          ∧ (r.accelZ_raw - g.accelBaselineZ < 0 →
              (readSensors G data0 dt prev g r).1.accelZ < 0))) := by
  obtain ⟨ax, ay, az, _, _, _⟩ := readSensors_motion G data0 dt prev g r ha
  rw [ax, ay, az]
  have cx := conditioned_axis (r.accelX_raw - g.accelBaselineX) G
  have cy := conditioned_axis (r.accelY_raw - g.accelBaselineY) G
  have cz := conditioned_axis (r.accelZ_raw - g.accelBaselineZ) G
  refine ⟨rfl, ⟨rfl, cx.1, fun h hG => ?_⟩, ⟨rfl, cy.1, fun h hG => ?_⟩,
    ⟨rfl, cz.1, fun h hG => ?_⟩⟩
  · exact ⟨(cx.2 h hG).1, (cx.2 h hG).2.1, (cx.2 h hG).2.2.1⟩
  · exact ⟨(cy.2 h hG).1, (cy.2 h hG).2.1, (cy.2 h hG).2.2.1⟩
  · exact ⟨(cz.2 h hG).1, (cz.2 h hG).2.1, (cz.2 h hG).2.2.1⟩

/-- Witness of C16: under thrust the z axis reads 2 above its baseline, outside the
dead-zone, and with `GRAVITY = 9.81` the conditioned acceleration on z is
positive; the x axis reads its baseline and its conditioned acceleration is 0. -/
theorem C16_acceleration_conditioning_witness :
    (readSensors (981 / 100) zeroData (1 / 10) movingData (initialGlobals (981 / 100))
        (boostReadings (981 / 100))).1.accelX = 0
    ∧ 0 < (readSensors (981 / 100) zeroData (1 / 10) movingData (initialGlobals (981 / 100))
        (boostReadings (981 / 100))).1.accelZ :=
  ⟨(C16_acceleration_conditioning (981 / 100) zeroData (1 / 10) movingData
      (initialGlobals (981 / 100)) (boostReadings (981 / 100)) rfl).2.1.2.1
      (by norm_num [boostReadings, restReadings, initialGlobals, ACCEL_THRESHOLD]),
   ((C16_acceleration_conditioning (981 / 100) zeroData (1 / 10) movingData
      (initialGlobals (981 / 100)) (boostReadings (981 / 100)) rfl).2.2.2.2.2
      (by norm_num [boostReadings, restReadings, initialGlobals, ACCEL_THRESHOLD, abs_lt])
      (by norm_num)).2.1
      (by norm_num [boostReadings, restReadings, initialGlobals])⟩

/-- C20: ground idle does not drift. Over every sequence of calls, each fed the
record returned by the previous one, in which an accelerometer sample is
available and every axis reads strictly within `ACCEL_THRESHOLD` of its
baseline, every call returns the initial position and the velocity 0 on all
axes, for every `deltaTime`, every initial velocity and every `GRAVITY`. -/
theorem C20_ground_idle_no_drift (G : ℚ) (prev : SensorData) (g : SensorGlobals)
    (ticks : List FedTick)
    (hidle : ∀ t ∈ ticks, t.readings.accelerationAvailable = true
      ∧ |t.readings.accelX_raw - g.accelBaselineX| < ACCEL_THRESHOLD
      ∧ |t.readings.accelY_raw - g.accelBaselineY| < ACCEL_THRESHOLD
      ∧ |t.readings.accelZ_raw - g.accelBaselineZ| < ACCEL_THRESHOLD) :
    (fedTrace G prev g ticks).length = ticks.length
    ∧ ∀ d ∈ fedTrace G prev g ticks,
        (d.positionX = prev.positionX ∧ d.positionY = prev.positionY
          ∧ d.positionZ = prev.positionZ)
        ∧ (d.velocityX = 0 ∧ d.velocityY = 0 ∧ d.velocityZ = 0) := by
  induction ticks generalizing prev g with
  | nil => simp [fedTrace]
  | cons t rest ih =>
    obtain ⟨ha, hx, hy, hz⟩ := hidle t (List.mem_cons_self t rest)
    obtain ⟨hv, hp⟩ := readSensors_idle G t.data0 t.deltaTime prev g t.readings ha hx hy hz
    obtain ⟨hl, hrest⟩ := ih (readSensors G t.data0 t.deltaTime prev g t.readings).1
      (readSensors G t.data0 t.deltaTime prev g t.readings).2.1
      (fun u hu => hidle u (List.mem_cons_of_mem t hu))
    refine ⟨by simp [fedTrace, hl], ?_⟩
    intro d hd
    simp only [fedTrace, List.mem_cons] at hd
    rcases hd with hd | hd
    · rw [hd]
      exact ⟨hp, hv⟩
    · obtain ⟨hdp, hdv⟩ := hrest d hd
      rw [hp.1, hp.2.1, hp.2.2] at hdp
      exact ⟨hdp, hdv⟩

/-- Witness of C20: three idle ticks with tick periods 1/10, 1/2 and 3, started
with velocity (1, 2, 3) at position (10, 20, 30): every tick returns the position
(10, 20, 30) and the velocity 0. -/
theorem C20_ground_idle_no_drift_witness :
    (fedTrace (981 / 100) movingData (initialGlobals (981 / 100))
        (idleTicks (981 / 100))).length = 3
    ∧ ∀ d ∈ fedTrace (981 / 100) movingData (initialGlobals (981 / 100))
          (idleTicks (981 / 100)),
        (d.positionX = 10 ∧ d.positionY = 20 ∧ d.positionZ = 30)
        ∧ (d.velocityX = 0 ∧ d.velocityY = 0 ∧ d.velocityZ = 0) :=
  C20_ground_idle_no_drift (981 / 100) movingData (initialGlobals (981 / 100))
    (idleTicks (981 / 100))
    (by
      intro t ht
      simp only [idleTicks, List.mem_cons, List.mem_singleton, List.not_mem_nil, or_false] at ht
      rcases ht with ht | ht | ht <;> rw [ht] <;>
        norm_num [restReadings, initialGlobals, ACCEL_THRESHOLD, abs_lt])

end Sensors
